import Mathlib

/-!
Verification development for the ThemeEasterEggs canvas animation subsystem
(theme-driven particle/wave simulations with a string-keyed dispatcher,
a per-frame animate callback and a React-effect controller).

Modelling conventions, applied uniformly:
* JavaScript numbers are modelled as rationals; Math.PI is the exact rational
  value of the IEEE-754 double 3.141592653589793 that the source reads.
* Math.sin has no rational closed form, so it is an uninterpreted parameter
  of the model (Env.sinQ); no claim below depends on its values.
* Math.random() is an ambient stream of rationals (Env.stream) consumed one
  value per call; every init/advance threads the call counter exactly in the
  order the source performs the calls.
* Math.sqrt(d) < c comparisons are modelled as d < c*c (equivalent for c > 0).
* Canvas painting is modelled as a list of DrawOp values: one backdrop
  operation per frame plus one operation per painted record, carrying the
  positions and the mode-dependent color parameters the source computes.
  Full path geometry and gradient stop lists are summarised.
-/

namespace ThemeEggs

/-- Color mode prop of the component: light or dark. -/
inductive Mode where
  | light
  | dark
deriving DecidableEq

/-- Colors as the source computes them: hsla components, rgba components. -/
inductive ColorSpec where
  | hsla (h s l a : ℚ)
  | rgba (r g b a : ℚ)
deriving DecidableEq

/-- One overlapping circle of a soft-pastel watercolor blob. -/
structure Circ where
  offsetX : ℚ := 0
  offsetY : ℚ := 0
  sizeMultiplier : ℚ := 0
deriving DecidableEq

/-- A summary of one canvas paint operation. -/
inductive DrawOp where
  | clearFrame
  | fillRectBg (c : ColorSpec)
  | arc (x y radius : ℚ) (c : ColorSpec)
  | lineSeg (x1 y1 x2 y2 : ℚ) (c : ColorSpec)
  | glyph (charIdx : Nat) (x y : ℚ) (c : ColorSpec)
  | wavePath (c : ColorSpec)
deriving DecidableEq

/-- Universal particle record.  The source stores heterogeneous records in a
single untyped array (particles : any[]); this structure is the union of all
fields any theme uses, with unused fields left at their defaults. -/
structure P where
  x : ℚ := 0
  y : ℚ := 0
  speed : ℚ := 0
  length : ℚ := 0
  opacity : ℚ := 0
  charIdx : Nat := 0
  offset : ℚ := 0
  amplitude : ℚ := 0
  baseY : ℚ := 0
  hue : ℚ := 0
  size : ℚ := 0
  speedX : ℚ := 0
  speedY : ℚ := 0
  angle : ℚ := 0
  angleSpeed : ℚ := 0
  ix : Nat := 0
  iy : Nat := 0
  twinklePhase : ℚ := 0
  twinkleSpeed : ℚ := 0
  wobble : ℚ := 0
  wobbleSpeed : ℚ := 0
  isSparkle : Bool := false
  originX : ℚ := 0
  originY : ℚ := 0
  vx : ℚ := 0
  vy : ℚ := 0
  radius : ℚ := 0
  baseRadius : ℚ := 0
  scale : ℚ := 0
  scaleSpeed : ℚ := 0
  scalePhase : ℚ := 0
  active : ℚ := 0
  closest : List Nat := []
  waveIndex : Nat := 0
  frequency : ℚ := 0
  hueShift : ℚ := 0
  thicknessMultiplier : ℚ := 0
  thickness : ℚ := 0
  delay : ℚ := 0
  colorC : ColorSpec := ColorSpec.rgba 0 0 0 0
  pulsePhase : ℚ := 0
  pulseSpeed : ℚ := 0
  time : ℚ := 0
  timeModifier : ℚ := 0
  wavelength : ℚ := 0
  lineWidth : ℚ := 0
  segmentLength : ℚ := 0
  initialRadius : ℚ := 0
  life : ℚ := 0
  maxLife : ℚ := 0
  waver : ℚ := 0
  waverSpeed : ℚ := 0
  baseSize : ℚ := 0
  circles : List Circ := []
  layer : Nat := 0
  maxRadius : ℚ := 0
  fadeSpeed : ℚ := 0
  colorRed : Bool := false
  hueSpeed : ℚ := 0
deriving DecidableEq

/-- The Pac-Man record of the nexus theme (module-level mutable object). -/
structure Pacman where
  x : ℚ := 0
  y : ℚ := 0
  size : ℚ := 12
  speed : ℚ := 3/2
  direction : Nat := 0
  mouthOpen : ℚ := 0
  mouthSpeed : ℚ := 3/20
  color : ColorSpec := ColorSpec.rgba 0 0 0 0
deriving DecidableEq

/-- One wandering ghost of the nexus theme. -/
structure Ghost where
  x : ℚ := 0
  y : ℚ := 0
  color : ColorSpec := ColorSpec.rgba 0 0 0 0
  speed : ℚ := 0
  direction : Nat := 0
  changeTimer : Nat := 0
deriving DecidableEq

/-- One dot of the nexus theme dot grid. -/
structure Dot where
  x : ℚ := 0
  y : ℚ := 0
  eaten : Bool := false
deriving DecidableEq

/-- Ambient environment of one effect run: the Math.random value stream and
the uninterpreted Math.sin function. -/
structure Env where
  stream : Nat → ℚ
  sinQ : ℚ → ℚ

/-- Full mutable state captured by one run of the ThemeEasterEggs effect:
the canvas dimensions, the Math.random call counter, the shared particle
array and every module-level mutable variable of the closure. -/
structure EggsState where
  w : ℚ := 0
  h : ℚ := 0
  k : Nat := 0
  particles : List P := []
  syntaxCount : ℚ := 0
  pacman : Pacman := {}
  ghosts : List Ghost := []
  dots : List Dot := []
  dotsEaten : Nat := 0
  perlinTab : List Nat := []
  variators : List ℚ := []
  mouseX : ℚ := 0
  mouseY : ℚ := 0
deriving DecidableEq

/-- Exact rational value of the IEEE-754 double Math.PI. -/
def piQ : ℚ := 3.141592653589793

/-- Value of the j-th Math.random() call of an effect run. -/
def rnd (env : Env) (j : Nat) : ℚ := env.stream j

/-- Math.floor on rationals, clamped to Nat for array indexing. -/
def natFloor (q : ℚ) : Nat := (Int.floor q).toNat

/-- Math.sign. -/
def signQ (q : ℚ) : ℚ := if 0 < q then 1 else if q < 0 then -1 else 0

/-- The JavaScript % remainder for the nonnegative operands the source feeds
it (equal to a - b * Math.floor (a / b) there). -/
def jsMod (a b : ℚ) : ℚ := a - b * (Int.floor (a / b) : ℚ)

/-- Fuel-bounded translation of a for-loop: values x, x+step, ... while
x < limit.  The fuel is far above every iteration count the source reaches. -/
def whileLt (x limit step : ℚ) : Nat → List ℚ
  | 0 => []
  | n + 1 => if x < limit then x :: whileLt (x + step) limit step n else []

/-- Default loop fuel. -/
def loopFuel : Nat := 100000

/-- Map a state-threading update over a list: the per-element function also
consumes Math.random calls, returning the advanced call counter. -/
def mapRnd (f : α → Nat → β × Nat) : List α → Nat → List β × Nat
  | [], k => ([], k)
  | a :: as, k =>
    let r := f a k
    let rest := mapRnd f as r.2
    (r.1 :: rest.1, rest.2)

/-- Stable insertion sort by a rational key, modelling the stable Array sort
the source uses on neighbor distances. -/
def insertByKey (key : α → ℚ) (a : α) : List α → List α
  | [] => [a]
  | b :: bs => if key a < key b then a :: b :: bs else b :: insertByKey key a bs

def sortByKey (key : α → ℚ) : List α → List α
  | [] => []
  | a :: as => insertByKey key a (sortByKey key as)

/-! ### Theme: aurora (default key) — Aurora Borealis waves -/

/-- One of five aurora layers, as pushed by initAurora.  Random draws, in
source order: offset, speed, amplitude, opacity. -/
def auroraLayer (env : Env) (h : ℚ) (i k : Nat) : P × Nat :=
  ({ offset := rnd env k * piQ * 2,
     speed := 0.002 + rnd env (k + 1) * 0.003,
     amplitude := 60 + rnd env (k + 2) * 40,
     baseY := h * 0.4 + (i : ℚ) * 20,
     hue := (i : ℚ) * 20,
     opacity := 0.15 + rnd env (k + 3) * 0.15 }, k + 4)

def initAurora (env : Env) (s : EggsState) : EggsState :=
  let b := mapRnd (fun i k => auroraLayer env s.h i k) (List.range 5) s.k
  { s with particles := s.particles ++ b.1, k := b.2 }

/-- Mode-dependent aurora gradient color: green/teal in dark mode, blue/cyan
in light mode (the mid gradient stop carries the layer opacity). -/
def auroraColor (mode : Mode) (p : P) : ColorSpec :=
  match mode with
  | Mode.dark => ColorSpec.hsla (150 + p.hue) 70 50 p.opacity
  | Mode.light => ColorSpec.hsla (200 + p.hue) 80 60 p.opacity

def animateAurora (mode : Mode) (s : EggsState) : EggsState × List DrawOp :=
  let upd := s.particles.map (fun p => { p with offset := p.offset + p.speed })
  (( { s with particles := upd } ),
   DrawOp.clearFrame :: s.particles.map (fun p => DrawOp.wavePath (auroraColor mode p)))

/-! ### Theme: cyber-noir — Matrix rain -/

/-- Length of the katakana + latin + digits alphabet built by initCyberNoir. -/
def cnAlphabetLen : Nat := 82

def initCyberNoir (env : Env) (s : EggsState) : EggsState :=
  let columns := natFloor (s.w / 16)
  let b := mapRnd (fun (i : Nat) k =>
    (({ x := (i : ℚ) * 16,
        y := rnd env k * s.h,
        speed := 0.25 * 16,
        charIdx := natFloor (rnd env (k + 1) * (cnAlphabetLen : ℚ)) } : P), k + 2))
    (List.range columns) s.k
  { s with particles := s.particles ++ b.1, k := b.2 }

/-- Per-column update of the Matrix rain: fall by speed; once below the
canvas, reset to the top only when a fresh random draw exceeds 0.975. -/
def cyberNoirFall (env : Env) (h : ℚ) (p : P) (k : Nat) : P × Nat :=
  let y1 := p.y + p.speed
  if y1 > h then
    if rnd env k > 0.975 then
      ({ p with y := 0, charIdx := natFloor (rnd env (k + 1) * (cnAlphabetLen : ℚ)) }, k + 2)
    else ({ p with y := y1 }, k + 1)
  else ({ p with y := y1 }, k)

def cnBg (mode : Mode) : ColorSpec :=
  match mode with
  | Mode.dark => ColorSpec.rgba 0 0 0 0.05
  | Mode.light => ColorSpec.rgba 255 255 255 0.05

def cnFg (mode : Mode) : ColorSpec :=
  match mode with
  | Mode.dark => ColorSpec.rgba 0 255 0 1
  | Mode.light => ColorSpec.rgba 102 102 102 1

def animateCyberNoir (env : Env) (mode : Mode) (s : EggsState) : EggsState × List DrawOp :=
  let b := mapRnd (cyberNoirFall env s.h) s.particles s.k
  (( { s with particles := b.1, k := b.2 } ),
   DrawOp.fillRectBg (cnBg mode) ::
     s.particles.map (fun p => DrawOp.glyph p.charIdx p.x p.y (cnFg mode)))

/-! ### Theme: verdant — Pacific Northwest rain -/

def initVerdant (env : Env) (s : EggsState) : EggsState :=
  let b := mapRnd (fun (_ : Nat) k =>
    (({ x := rnd env k * s.w,
        y := rnd env (k + 1) * s.h,
        speed := 1 + rnd env (k + 2) * 2,
        length := 10 + rnd env (k + 3) * 20,
        opacity := 0.2 + rnd env (k + 4) * 0.3 } : P), k + 5))
    (List.range 50) s.k
  { s with particles := s.particles ++ b.1, k := b.2 }

def animateVerdant (s : EggsState) : EggsState × List DrawOp :=
  let upd := s.particles.map (fun p =>
    let y1 := p.y + p.speed
    { p with y := if y1 > s.h then -p.length else y1 })
  (( { s with particles := upd } ),
   DrawOp.clearFrame ::
     s.particles.map (fun p => DrawOp.lineSeg p.x p.y p.x (p.y + p.length)
       (ColorSpec.rgba 100 150 120 p.opacity)))

/-! ### Theme: earthy — flowing sand and dust clouds -/

def initEarthy (env : Env) (s : EggsState) : EggsState :=
  let b := mapRnd (fun (_ : Nat) k =>
    (({ x := rnd env k * s.w,
        y := rnd env (k + 1) * s.h,
        size := 30 + rnd env (k + 2) * 50,
        speedX := 0.2 + rnd env (k + 3) * 0.4,
        speedY := (rnd env (k + 4) - 0.5) * 0.3,
        angle := rnd env (k + 5) * piQ * 2,
        angleSpeed := 0.01 + rnd env (k + 6) * 0.02,
        opacity := 0.15 + rnd env (k + 7) * 0.15,
        hue := 15 + rnd env (k + 8) * 25 } : P), k + 9))
    (List.range 40) s.k
  { s with particles := s.particles ++ b.1, k := b.2 }

def earthyColor (mode : Mode) (p : P) : ColorSpec :=
  match mode with
  | Mode.dark => ColorSpec.hsla p.hue 55 40 p.opacity
  | Mode.light => ColorSpec.hsla p.hue 45 55 p.opacity

/-- Dust-cloud drift with wrap-around at a size-sized margin; the two x
checks (and the two y checks) run sequentially as in the source. -/
def earthyMove (env : Env) (w h : ℚ) (p : P) : P :=
  let drift := env.sinQ p.angle * 0.5
  let x1 := p.x + p.speedX + drift
  let y1 := p.y + p.speedY
  let x2 := if x1 > w + p.size then -p.size else x1
  let x3 := if x2 < -p.size then w + p.size else x2
  let y2 := if y1 > h + p.size then -p.size else y1
  let y3 := if y2 < -p.size then h + p.size else y2
  { p with x := x3, y := y3, angle := p.angle + p.angleSpeed }

def animateEarthy (env : Env) (mode : Mode) (s : EggsState) : EggsState × List DrawOp :=
  (( { s with particles := s.particles.map (earthyMove env s.w s.h) } ),
   DrawOp.clearFrame ::
     s.particles.map (fun p => DrawOp.arc p.x p.y p.size (earthyColor mode p)))

/-! ### Theme: syntax — 3D particle wave grid (renamed from the source's
initSyntax / animateSyntax pair; the grid is AMOUNTX x AMOUNTY = 60 x 40
with SEPARATION 50, and the module counter syntaxCount advances by 0.035
per frame). -/

def initSyntaxGrid (s : EggsState) : EggsState :=
  let grid := (List.range 60).flatMap (fun ix =>
    (List.range 40).map (fun iy => ({ ix := ix, iy := iy } : P)))
  { s with particles := s.particles ++ grid }

def syntaxColor (mode : Mode) (opacity : ℚ) : ColorSpec :=
  match mode with
  | Mode.dark => ColorSpec.rgba 212 102 237 opacity
  | Mode.light => ColorSpec.rgba 34 195 195 opacity

/-- Wave position of the grid particle at flat index idx (the source walks
particles[i++] inside the ix/iy loops, so ix = idx / 40 and iy = idx % 40),
returning the record with its written x/y plus the drawn size and opacity. -/
def syntaxWavePos (env : Env) (w h count : ℚ) (idx : Nat) (p : P) : P × (ℚ × ℚ) :=
  let ix : ℚ := (idx / 40 : Nat)
  let iy : ℚ := (idx % 40 : Nat)
  let waveY := env.sinQ ((ix + count) * 0.5) * 15 + env.sinQ ((iy + count) * 0.5) * 15
  let waveScale := (env.sinQ ((ix + count) * 0.5) + 2) * 4 + (env.sinQ ((iy + count) * 0.5) + 1) * 4
  let perspective := 1 - (iy / 40) * 0.8
  let depth := 180 - iy * 5
  let baseX := ix * 50 - (60 * 50) / 2
  let px := baseX * perspective + w / 2
  let py := h - depth + waveY * perspective
  let size := waveScale * 0.15 * perspective
  let opacity := max 0.15 (min 0.7 (perspective * 0.8))
  ({ p with x := px, y := py }, (size, opacity))

def animateSyntaxGrid (env : Env) (mode : Mode) (s : EggsState) : EggsState × List DrawOp :=
  let upd := s.particles.enum.map (fun ip => (syntaxWavePos env s.w s.h s.syntaxCount ip.1 ip.2).1)
  let draws := s.particles.enum.map (fun ip =>
    let r := syntaxWavePos env s.w s.h s.syntaxCount ip.1 ip.2
    DrawOp.arc r.1.x r.1.y r.2.1 (syntaxColor mode r.2.2))
  (( { s with particles := upd, syntaxCount := s.syntaxCount + 0.035 } ),
   DrawOp.clearFrame :: draws)

/-! ### Theme: nexus — Pac-Man, dots and ghosts -/

def nexusPacColor (mode : Mode) : ColorSpec :=
  match mode with
  | Mode.dark => ColorSpec.rgba 34 211 238 1
  | Mode.light => ColorSpec.rgba 6 182 212 1

def nexusGhostColors (mode : Mode) : List ColorSpec :=
  match mode with
  | Mode.dark => [ColorSpec.rgba 168 85 247 1, ColorSpec.rgba 236 72 153 1,
                  ColorSpec.rgba 34 211 238 1]
  | Mode.light => [ColorSpec.rgba 147 51 234 1, ColorSpec.rgba 219 39 119 1,
                   ColorSpec.rgba 6 182 212 1]

def nexusDotColor (mode : Mode) : ColorSpec :=
  match mode with
  | Mode.dark => ColorSpec.rgba 168 85 247 0.4
  | Mode.light => ColorSpec.rgba 147 51 234 0.3

def nexusEyeColor (mode : Mode) : ColorSpec :=
  match mode with
  | Mode.dark => ColorSpec.rgba 26 26 26 1
  | Mode.light => ColorSpec.rgba 255 255 255 1

/-- Direction vector table of the nexus theme (0 right, 1 down, 2 left,
3 up); indices above 3 are never produced, since they come from
Math.floor of a random value below 4. -/
def dirTable (d : Nat) : ℚ × ℚ :=
  match d with
  | 0 => (1, 0)
  | 1 => (0, 1)
  | 2 => (-1, 0)
  | _ => (0, -1)

def initNexus (env : Env) (mode : Mode) (s : EggsState) : EggsState :=
  let pac := { s.pacman with x := s.w / 2, y := s.h / 2 }
  let offsetX := jsMod s.w 40 / 2
  let offsetY := jsMod s.h 40 / 2
  let xs := whileLt (offsetX + 40) (s.w - 40) 40 loopFuel
  let ys := whileLt (offsetY + 40) (s.h - 40) 40 loopFuel
  let newDots := xs.flatMap (fun x => ys.map (fun y => ({ x := x, y := y } : Dot)))
  let g := mapRnd (fun (i : Nat) k =>
    (({ x := (s.w / 4) * ((i : ℚ) + 1),
        y := s.h / 4,
        color := (nexusGhostColors mode).getD i (ColorSpec.rgba 0 0 0 0),
        speed := 0.8 + rnd env k * 0.4,
        direction := natFloor (rnd env (k + 1) * 4) } : Ghost), k + 2))
    (List.range 3) s.k
  { s with pacman := pac, dots := s.dots ++ newDots, ghosts := s.ghosts ++ g.1, k := g.2 }

/-- One step of the dot-eating pass: the source mutates the dots array and
the dotsEaten counter inside a forEach, and resets every dot once 80% of
them have been eaten, so the whole pass is a left fold over the indices. -/
def nexusEatStep (pac : Pacman) (st : List Dot × Nat) (idx : Nat) : List Dot × Nat :=
  let d := st.1.getD idx {}
  if !d.eaten ∧ (pac.x - d.x) * (pac.x - d.x) + (pac.y - d.y) * (pac.y - d.y)
      < pac.size * pac.size then
    let ds := st.1.set idx { d with eaten := true }
    let eaten := st.2 + 1
    if (eaten : ℚ) ≥ (ds.length : ℚ) * 0.8 then
      (ds.map (fun d0 => { d0 with eaten := false }), 0)
    else (ds, eaten)
  else st

/-- Ghost wander-and-bounce update; the random draw of the direction-change
test is short-circuited away when the timer alone forces a change. -/
def ghostMove (env : Env) (w h : ℚ) (g : Ghost) (k : Nat) : Ghost × Nat :=
  let ct1 := g.changeTimer + 1
  let pick :=
    if ct1 > 60 then (natFloor (rnd env k * 4), (0 : Nat), k + 1)
    else if rnd env k < 0.015 then (natFloor (rnd env (k + 1) * 4), (0 : Nat), k + 2)
    else (g.direction, ct1, k + 1)
  let dv := dirTable pick.1
  let x1 := g.x + dv.1 * g.speed
  let y1 := g.y + dv.2 * g.speed
  let hitX := x1 < 20 ∨ x1 > w - 20
  let dir2 := if hitX then (if pick.1 = 0 then 2 else 0) else pick.1
  let x2 := if hitX then max 20 (min (w - 20) x1) else x1
  let hitY := y1 < 20 ∨ y1 > h - 20
  let dir3 := if hitY then (if dir2 = 1 then 3 else 1) else dir2
  let y2 := if hitY then max 20 (min (h - 20) y1) else y1
  ({ g with x := x2, y := y2, direction := dir3, changeTimer := pick.2.1 }, pick.2.2)

def animateNexus (env : Env) (mode : Mode) (s : EggsState) : EggsState × List DrawOp :=
  let pac0 := { s.pacman with color := nexusPacColor mode }
  let dv := dirTable pac0.direction
  let x1 := pac0.x + dv.1 * pac0.speed
  let y1 := pac0.y + dv.2 * pac0.speed
  let x2 := if x1 < -pac0.size then s.w + pac0.size else x1
  let x3 := if x2 > s.w + pac0.size then -pac0.size else x2
  let y2 := if y1 < -pac0.size then s.h + pac0.size else y1
  let y3 := if y2 > s.h + pac0.size then -pac0.size else y2
  let turn :=
    if rnd env s.k < 0.02 then (natFloor (rnd env (s.k + 1) * 4), s.k + 2)
    else (pac0.direction, s.k + 1)
  let mo1 := pac0.mouthOpen + pac0.mouthSpeed
  let ms1 := if mo1 > 0.5 ∨ mo1 < 0 then -pac0.mouthSpeed else pac0.mouthSpeed
  let pac1 := { pac0 with
                x := x3, y := y3, direction := turn.1,
                mouthOpen := mo1, mouthSpeed := ms1 }
  let eat := (List.range s.dots.length).foldl (nexusEatStep pac1) (s.dots, s.dotsEaten)
  let gs := mapRnd (ghostMove env s.w s.h) s.ghosts turn.2
  let dotDraws := s.dots.filterMap (fun d =>
    if d.eaten then none else some (DrawOp.arc d.x d.y 2 (nexusDotColor mode)))
  let ghostDraws := gs.1.flatMap (fun g =>
    [DrawOp.arc g.x (g.y - 2) 10 g.color,
     DrawOp.arc (g.x - 4) (g.y - 2) 3 (nexusEyeColor mode),
     DrawOp.arc (g.x + 4) (g.y - 2) 3 (nexusPacColor mode)])
  (( { s with
       pacman := pac1, dots := eat.1, dotsEaten := eat.2,
       ghosts := gs.1, k := gs.2 } ),
   DrawOp.clearFrame :: dotDraws ++
     DrawOp.arc pac1.x pac1.y pac1.size pac1.color :: ghostDraws)

/-! ### Theme: luxury (Opulence) — floating gold dust and sparkles -/

def opulenceParticle (env : Env) (w h : ℚ) (k : Nat) : P × Nat :=
  let isSparkle := rnd env k > 0.6
  ({ x := rnd env (k + 1) * w,
     y := rnd env (k + 2) * h,
     speedX := (rnd env (k + 3) - 0.5) * 0.3,
     speedY := -0.1 - rnd env (k + 4) * 0.3,
     size := if isSparkle then 1 + rnd env (k + 5) * 1.5 else 2 + rnd env (k + 5) * 3,
     opacity := if isSparkle then 0.5 + rnd env (k + 6) * 0.3 else 0.3 + rnd env (k + 6) * 0.3,
     twinklePhase := rnd env (k + 7) * piQ * 2,
     twinkleSpeed := 0.03 + rnd env (k + 8) * 0.05,
     isSparkle := isSparkle,
     wobble := rnd env (k + 9) * piQ * 2,
     wobbleSpeed := 0.02 + rnd env (k + 10) * 0.03 }, k + 11)

def initOpulence (env : Env) (s : EggsState) : EggsState :=
  let b := mapRnd (fun (_ : Nat) k => opulenceParticle env s.w s.h k) (List.range 50) s.k
  { s with particles := s.particles ++ b.1, k := b.2 }

/-- Gold dust drift: float upward with wobble, rewrapping below the canvas
at a fresh random x once a particle leaves the top. -/
def opulenceMove (env : Env) (w h : ℚ) (p : P) (k : Nat) : P × Nat :=
  let x1 := p.x + p.speedX
  let y1 := p.y + p.speedY
  let wob := p.wobble + p.wobbleSpeed
  let tw := p.twinklePhase + p.twinkleSpeed
  let r := if y1 < -10 then ((h + 10, rnd env k * w), k + 1) else ((y1, x1), k)
  let x2 := if r.1.2 < -10 then w + 10 else r.1.2
  let x3 := if x2 > w + 10 then -10 else x2
  ({ p with x := x3, y := r.1.1, wobble := wob, twinklePhase := tw }, r.2)

def opulenceDraw (env : Env) (p : P) : DrawOp :=
  let wobbleX := env.sinQ p.wobble * 2
  let twinkle := env.sinQ p.twinklePhase * 0.3 + 0.7
  let currentOpacity := p.opacity * twinkle
  DrawOp.arc (p.x + wobbleX) p.y p.size
    (if p.isSparkle then ColorSpec.rgba 255 223 0 currentOpacity
     else ColorSpec.rgba 255 200 50 currentOpacity)

def animateOpulence (env : Env) (s : EggsState) : EggsState × List DrawOp :=
  let b := mapRnd (opulenceMove env s.w s.h) s.particles s.k
  (( { s with particles := b.1, k := b.2 } ),
   DrawOp.clearFrame :: s.particles.map (opulenceDraw env))

/-! ### Theme: sterling — connected particle network -/

/-- Indices of the five nearest neighbors of particle i, by squared distance,
with the stable sort the source's comparator-based Array sort performs. -/
def closestFive (ps : List P) (i : Nat) : List Nat :=
  let p1 := ps.getD i {}
  let cands := ps.enum.filterMap (fun jp =>
    if jp.1 = i then none
    else some (jp.1, (p1.x - jp.2.x) * (p1.x - jp.2.x) + (p1.y - jp.2.y) * (p1.y - jp.2.y)))
  ((sortByKey (fun c => c.2) cands).take 5).map (fun c => c.1)

def sterlingCell (env : Env) (spacingX spacingY : ℚ) (c : ℚ × ℚ) (k : Nat) : P × Nat :=
  let px := c.1 + rnd env k * spacingX
  let py := c.2 + rnd env (k + 1) * spacingY
  ({ x := px, y := py, originX := px, originY := py,
     vx := (rnd env (k + 2) - 0.5) * 1.2,
     vy := (rnd env (k + 3) - 0.5) * 1.2,
     radius := 1 + rnd env (k + 4) * 1,
     baseRadius := 1 + rnd env (k + 5) * 1,
     scale := 1,
     scaleSpeed := 0.01 + rnd env (k + 6) * 0.01,
     scalePhase := rnd env (k + 7) * piQ * 2,
     active := 0.15 }, k + 8)

def initSterling (env : Env) (s : EggsState) : EggsState :=
  let spacingX := s.w / 22
  let spacingY := s.h / 22
  let cells := (whileLt 0 s.w spacingX loopFuel).flatMap (fun x =>
    (whileLt 0 s.h spacingY loopFuel).map (fun y => (x, y)))
  let raw := mapRnd (sterlingCell env spacingX spacingY) cells s.k
  let withClosest := raw.1.enum.map (fun ip => { ip.2 with closest := closestFive raw.1 ip.1 })
  { s with particles := s.particles ++ withClosest, k := raw.2 }

def sterlingBase (mode : Mode) (a : ℚ) : ColorSpec :=
  match mode with
  | Mode.dark => ColorSpec.rgba 179 188 204 a
  | Mode.light => ColorSpec.rgba 51 60 77 a

def sterlingAccent (mode : Mode) (a : ℚ) : ColorSpec :=
  match mode with
  | Mode.dark => ColorSpec.rgba 217 171 64 a
  | Mode.light => ColorSpec.rgba 180 140 50 a

/-- Mouse-proximity activation thresholds (the source compares a Math.sqrt
distance against 150 / 300 / 500; squared on both sides here). -/
def sterlingActive (mouseX mouseY px py : ℚ) : ℚ :=
  let dx := mouseX - px
  let dy := mouseY - py
  let d2 := dx * dx + dy * dy
  if d2 < 150 * 150 then 0.45
  else if d2 < 300 * 300 then 0.3
  else if d2 < 500 * 500 then 0.2
  else 0.15

/-- Sterling node update: activation, z-scale oscillation, spring pull toward
the origin plus random drift with damping, then the 70-pixel drift clamp that
snaps an escaped coordinate back to the limit and reverses half its
velocity. -/
def sterlingMove (env : Env) (mouseX mouseY : ℚ) (p : P) (k : Nat) : P × Nat :=
  let active := sterlingActive mouseX mouseY p.x p.y
  let scalePhase1 := p.scalePhase + p.scaleSpeed
  let scale1 := 0.6 + env.sinQ scalePhase1 * 0.4
  let vxA := p.vx + (p.originX - p.x) * 0.003
  let vyA := p.vy + (p.originY - p.y) * 0.003
  let vxB := vxA + (rnd env k - 0.5) * 0.05
  let vyB := vyA + (rnd env (k + 1) - 0.5) * 0.05
  let vxC := vxB * 0.95
  let vyC := vyB * 0.95
  let x1 := p.x + vxC
  let y1 := p.y + vyC
  let clampX := abs (x1 - p.originX) > 70
  let x2 := if clampX then p.originX + signQ (x1 - p.originX) * 70 else x1
  let vx2 := if clampX then vxC * (-0.5) else vxC
  let clampY := abs (y1 - p.originY) > 70
  let y2 := if clampY then p.originY + signQ (y1 - p.originY) * 70 else y1
  let vy2 := if clampY then vyC * (-0.5) else vyC
  ({ p with
     x := x2, y := y2, vx := vx2, vy := vy2, active := active,
     scale := scale1, scalePhase := scalePhase1 }, k + 2)

/-- Connection and node draws for one sterling particle.  The source walks
stored object references while mutating the array in place, so a neighbor
drawn here may already have moved this frame; the summary reads neighbor
positions from the frame-start list, which no claim distinguishes. -/
def sterlingDraws (mode : Mode) (ps : List P) (p : P) (active scale1 : ℚ) : List DrawOp :=
  let col := fun a => if active > 0.35 then sterlingAccent mode a else sterlingBase mode a
  p.closest.map (fun j =>
    let nb := ps.getD j {}
    DrawOp.lineSeg p.x p.y nb.x nb.y (col (active * 0.6 * ((p.scale + nb.scale) / 2))))
  ++ [DrawOp.arc p.x p.y (p.baseRadius * scale1) (col (active * 0.8 * scale1))]

def animateSterling (env : Env) (mode : Mode) (s : EggsState) : EggsState × List DrawOp :=
  let b := mapRnd (sterlingMove env s.mouseX s.mouseY) s.particles s.k
  let draws := s.particles.flatMap (fun p =>
    sterlingDraws mode s.particles p (sterlingActive s.mouseX s.mouseY p.x p.y)
      (0.6 + env.sinQ (p.scalePhase + p.scaleSpeed) * 0.4))
  (( { s with particles := b.1, k := b.2 } ), DrawOp.clearFrame :: draws)

/-! ### Theme: vogue — flowing fabric waves -/

def vogueThickness : List ℚ := [0.7, 1, 1.3, 0.9, 1.5, 1.1, 0.8, 1.2, 0.9]

def initVogue (s : EggsState) : EggsState :=
  let waves := (List.range 9).map (fun (i : Nat) =>
    ({ offset := (i : ℚ) * piQ * 2 / 9,
       waveIndex := i,
       amplitude := 30 + (i : ℚ) * 10,
       frequency := 0.003 + (i : ℚ) * 0.0003,
       speed := 0.01 + (i : ℚ) * 0.0015,
       hue := 348 + (i : ℚ) * 1.5,
       hueShift := 0,
       thicknessMultiplier := vogueThickness.getD i 0 } : P))
  { s with particles := s.particles ++ waves }

/-- Per-wave update: cycle the hue-shift phase modulo 10 and advance the
wave offset; only the stroke color reads the mode. -/
def vogueStep (env : Env) (mode : Mode) (index : Nat) (p : P) : P × DrawOp :=
  let hueShift1 := jsMod (p.hueShift + 0.05) 10
  let currentHue := p.hue + env.sinQ hueShift1 * 3
  let saturation : ℚ := match mode with | Mode.dark => 85 | Mode.light => 75
  let lightness : ℚ := match mode with
    | Mode.dark => 54 + (index : ℚ) * 2
    | Mode.light => 44 + (index : ℚ) * 2
  ({ p with hueShift := hueShift1, offset := p.offset + p.speed },
   DrawOp.wavePath (ColorSpec.hsla currentHue saturation lightness 0.24))

def animateVogue (env : Env) (mode : Mode) (s : EggsState) : EggsState × List DrawOp :=
  let both := s.particles.enum.map (fun ip => vogueStep env mode ip.1 ip.2)
  (( { s with particles := both.map Prod.fst } ),
   DrawOp.clearFrame :: both.map Prod.snd)

/-! ### Theme: velocity — streaking speed lines -/

def velocityColors (mode : Mode) : List ColorSpec :=
  match mode with
  | Mode.dark => [ColorSpec.rgba 255 77 153 1, ColorSpec.rgba 0 229 255 1]
  | Mode.light => [ColorSpec.rgba 230 26 128 1, ColorSpec.rgba 0 186 204 1]

def initVelocity (env : Env) (mode : Mode) (s : EggsState) : EggsState :=
  let b := mapRnd (fun (_ : Nat) k =>
    (({ x := -100,
        y := rnd env (k + 1) * s.h,
        speed := 4 + rnd env (k + 2) * 8,
        length := 40 + rnd env (k + 3) * 80,
        thickness := 1 + rnd env (k + 4) * 2,
        opacity := 0.3 + rnd env (k + 5) * 0.4,
        colorC := (velocityColors mode).getD (natFloor (rnd env k * 2))
          (ColorSpec.rgba 0 0 0 0),
        delay := rnd env (k + 6) * 100 } : P), k + 7))
    (List.range 20) s.k
  { s with particles := s.particles ++ b.1, k := b.2 }

/-- Rebuild a stored rgb color with a new alpha (the source interpolates the
stored r/g/b components into a gradient with the line's opacity). -/
def withAlpha (c : ColorSpec) (a : ℚ) : ColorSpec :=
  match c with
  | ColorSpec.rgba r g b _ => ColorSpec.rgba r g b a
  | ColorSpec.hsla h s l _ => ColorSpec.hsla h s l a

/-- Speed-line update: while the start delay is positive only tick it down
(the line is not drawn); otherwise streak right and reset off screen with a
fresh y, speed and delay. -/
def velocityMove (env : Env) (w h : ℚ) (p : P) (k : Nat) : (P × Option DrawOp) × Nat :=
  if p.delay > 0 then (({ p with delay := p.delay - 1 }, none), k)
  else
    let draw := DrawOp.lineSeg p.x p.y (p.x - p.length) p.y (withAlpha p.colorC p.opacity)
    let x1 := p.x + p.speed
    if x1 > w + p.length then
      (({ p with
          x := -p.length, y := rnd env k * h,
          speed := 4 + rnd env (k + 1) * 8,
          delay := rnd env (k + 2) * 50 }, some draw), k + 3)
    else (({ p with x := x1 }, some draw), k)

def animateVelocity (env : Env) (s : EggsState) : EggsState × List DrawOp :=
  let b := mapRnd (velocityMove env s.w s.h) s.particles s.k
  (( { s with particles := b.1.map Prod.fst, k := b.2 } ),
   DrawOp.clearFrame :: b.1.filterMap Prod.snd)

/-! ### Theme: comic — floating bold dots -/

def comicColors (mode : Mode) : List ColorSpec :=
  match mode with
  | Mode.dark => [ColorSpec.hsla 220 100 60 0.4, ColorSpec.hsla 40 100 60 0.4,
                  ColorSpec.hsla 350 100 65 0.4]
  | Mode.light => [ColorSpec.hsla 220 100 50 0.3, ColorSpec.hsla 40 100 55 0.3,
                   ColorSpec.hsla 350 100 55 0.3]

def initComic (env : Env) (mode : Mode) (s : EggsState) : EggsState :=
  let b := mapRnd (fun (_ : Nat) k =>
    (({ x := rnd env k * s.w,
        y := rnd env (k + 1) * s.h,
        size := 8 + rnd env (k + 2) * 12,
        colorC := (comicColors mode).getD (natFloor (rnd env (k + 3) * 3))
          (ColorSpec.rgba 0 0 0 0),
        speedX := (rnd env (k + 4) - 0.5) * 1.2,
        speedY := (rnd env (k + 5) - 0.5) * 1.2,
        pulsePhase := rnd env (k + 6) * piQ * 2,
        pulseSpeed := 0.03 + rnd env (k + 7) * 0.02 } : P), k + 8))
    (List.range 30) s.k
  { s with particles := s.particles ++ b.1, k := b.2 }

/-- Comic dot update: drift, reverse a speed component when the moved
position leaves the canvas, then clamp the position into the canvas. -/
def comicMove (w h : ℚ) (p : P) : P :=
  let x1 := p.x + p.speedX
  let y1 := p.y + p.speedY
  let sx := if x1 < 0 ∨ x1 > w then -p.speedX else p.speedX
  let sy := if y1 < 0 ∨ y1 > h then -p.speedY else p.speedY
  { p with
    x := max 0 (min w x1), y := max 0 (min h y1),
    speedX := sx, speedY := sy, pulsePhase := p.pulsePhase + p.pulseSpeed }

def animateComic (env : Env) (s : EggsState) : EggsState × List DrawOp :=
  (( { s with particles := s.particles.map (comicMove s.w s.h) } ),
   DrawOp.clearFrame :: s.particles.map (fun p =>
     DrawOp.arc p.x p.y (p.size * (env.sinQ p.pulsePhase * 0.3 + 1)) p.colorC))

/-! ### Theme: vitality — heartbeat pulse waves -/

def vitalityColors (mode : Mode) : List ColorSpec :=
  match mode with
  | Mode.dark => [ColorSpec.hsla 210 70 55 0.5, ColorSpec.hsla 170 45 55 0.35,
                  ColorSpec.hsla 195 75 60 0.4, ColorSpec.hsla 210 70 55 0.25]
  | Mode.light => [ColorSpec.hsla 210 65 45 0.4, ColorSpec.hsla 170 40 50 0.3,
                   ColorSpec.hsla 195 75 55 0.35, ColorSpec.hsla 210 65 45 0.2]

def initVitality (mode : Mode) (s : EggsState) : EggsState :=
  let c := vitalityColors mode
  let waves : List P :=
    [{ time := 0, timeModifier := 1, amplitude := 80, wavelength := 200, speed := 5,
       lineWidth := 3, colorC := c.getD 0 (ColorSpec.rgba 0 0 0 0), segmentLength := 20 },
     { time := 0, timeModifier := 1, amplitude := 120, wavelength := 200, speed := 5,
       lineWidth := 2, colorC := c.getD 1 (ColorSpec.rgba 0 0 0 0), segmentLength := 15 },
     { time := 0, timeModifier := 1, amplitude := -70, wavelength := 50, speed := 5,
       lineWidth := 2.5, colorC := c.getD 2 (ColorSpec.rgba 0 0 0 0), segmentLength := 10 },
     { time := 0, timeModifier := 1, amplitude := -50, wavelength := 100, speed := 5,
       lineWidth := 1.5, colorC := c.getD 3 (ColorSpec.rgba 0 0 0 0), segmentLength := 20 }]
  { s with particles := s.particles ++ waves }

def animateVitality (s : EggsState) : EggsState × List DrawOp :=
  (( { s with particles := s.particles.map (fun p => { p with time := p.time - 0.004 }) } ),
   DrawOp.clearFrame :: s.particles.map (fun p => DrawOp.wavePath p.colorC))

/-! ### Theme: ember — rising flame particles -/

def numberOfEmberParticles : Nat := 150

/-- Fresh ember particle fields, used both by initEmber and by the in-place
respawn; eight random draws in source order (x, y, radius, speedY, life, hue,
waver, waverSpeed), with initialRadius and maxLife copied from the drawn
radius and life. -/
def emberFresh (env : Env) (w h : ℚ) (k : Nat) (p : P) : P × Nat :=
  let radius := rnd env (k + 2) * 6 + 3
  let life := rnd env (k + 4) * 350 + 250
  ({ p with
     x := rnd env k * w,
     y := h + rnd env (k + 1) * 50,
     radius := radius, initialRadius := radius,
     speedY := rnd env (k + 3) * 1.5 + 0.8,
     life := life, maxLife := life,
     hue := rnd env (k + 5) * 30 + 10,
     waver := rnd env (k + 6) * 2 - 1,
     waverSpeed := rnd env (k + 7) * 0.05 + 0.01 }, k + 8)

def initEmber (env : Env) (s : EggsState) : EggsState :=
  let b := mapRnd (fun (_ : Nat) k => emberFresh env s.w s.h k {})
    (List.range numberOfEmberParticles) s.k
  { s with particles := s.particles ++ b.1, k := b.2 }

/-- Ember update: age by one frame, rise, waver sideways, shrink the radius
with remaining life, and respawn (never remove) once dead or too small. -/
def emberMove (env : Env) (w h : ℚ) (p : P) (k : Nat) : P × Nat :=
  let life1 := p.life - 1
  let y1 := p.y - p.speedY
  let waver1 := p.waver + p.waverSpeed
  let x1 := p.x + env.sinQ waver1 * 1
  let radius1 := p.initialRadius * (life1 / p.maxLife)
  if life1 ≤ 0 ∨ radius1 ≤ 0.1 then
    emberFresh env w h k { p with waver := waver1 }
  else
    ({ p with x := x1, y := y1, waver := waver1, life := life1, radius := radius1 }, k)

def emberDraw (mode : Mode) (p : P) : DrawOp :=
  let opacity := (p.life / p.maxLife) * 0.7
  let saturation : ℚ := match mode with | Mode.dark => 100 | Mode.light => 70
  let lightness : ℚ := match mode with | Mode.dark => 50 | Mode.light => 45
  DrawOp.arc p.x p.y p.radius (ColorSpec.hsla p.hue saturation lightness opacity)

def animateEmber (env : Env) (mode : Mode) (s : EggsState) : EggsState × List DrawOp :=
  let b := mapRnd (emberMove env s.w s.h) s.particles s.k
  (( { s with particles := b.1, k := b.2 } ),
   DrawOp.clearFrame :: b.1.map (emberDraw mode))

/-! ### Theme: minimalist (Zen) — Perlin noise flowing waves

The wave geometry walks a Perlin noise field per pixel; the drawn alpha
simplifies to a constant 0.05 (Math.min of a nonnegative value plus 0.05
against 0.05), doubled to 0.1 in the stroke color, so the per-pixel noise
affects geometry only, which the draw summary omits.  The source also
writes one slot past the end of the variators array (index 40, becoming
NaN in JavaScript); rationals have no NaN and no claim reads that slot, so
only the 40 real entries are modelled. -/

def zenMaxLines : Nat := 40

def initZen (env : Env) (s : EggsState) : EggsState :=
  let tab := mapRnd (fun (_ : Nat) k => (natFloor (rnd env k * 256), k + 1))
    (List.range 256) s.k
  { s with
    perlinTab := tab.1 ++ tab.1,
    variators := (List.range zenMaxLines).map (fun (i : Nat) => (i : ℚ) * 0.02),
    k := tab.2 }

def zenColor (mode : Mode) : ColorSpec :=
  match mode with
  | Mode.dark => ColorSpec.rgba 255 255 255 0.1
  | Mode.light => ColorSpec.rgba 0 0 0 0.1

def animateZen (mode : Mode) (s : EggsState) : EggsState × List DrawOp :=
  (( { s with variators := s.variators.map (fun u => u + 0.005) } ),
   DrawOp.clearFrame :: (List.range (zenMaxLines + 1)).map (fun _ => DrawOp.wavePath (zenColor mode)))

/-! ### Theme: soft-pastel — watercolor blobs -/

def pastelColors : List ColorSpec :=
  [ColorSpec.hsla 330 100 85 0.6, ColorSpec.hsla 270 100 85 0.6,
   ColorSpec.hsla 200 100 85 0.6, ColorSpec.hsla 150 100 85 0.6,
   ColorSpec.hsla 40 100 85 0.6, ColorSpec.hsla 290 100 85 0.6]

def softPastelBlob (env : Env) (w h : ℚ) (k : Nat) : P × Nat :=
  let nCirc := 3 + natFloor (rnd env (k + 8) * 3)
  let circs := mapRnd (fun (_ : Nat) j =>
    (({ offsetX := (rnd env j - 0.5) * 40,
        offsetY := (rnd env (j + 1) - 0.5) * 40,
        sizeMultiplier := 0.6 + rnd env (j + 2) * 0.6 } : Circ), j + 3))
    (List.range nCirc) (k + 9)
  ({ x := rnd env k * w,
     y := rnd env (k + 1) * h,
     baseSize := 60 + rnd env (k + 2) * 80,
     colorC := pastelColors.getD (natFloor (rnd env (k + 3) * 6)) (ColorSpec.rgba 0 0 0 0),
     speedX := (rnd env (k + 4) - 0.5) * 0.3,
     speedY := (rnd env (k + 5) - 0.5) * 0.3,
     pulseSpeed := 0.001 + rnd env (k + 6) * 0.002,
     pulsePhase := rnd env (k + 7) * piQ * 2,
     circles := circs.1 }, circs.2)

def initSoftPastel (env : Env) (s : EggsState) : EggsState :=
  let b := mapRnd (fun (_ : Nat) k => softPastelBlob env s.w s.h k) (List.range 15) s.k
  { s with particles := s.particles ++ b.1, k := b.2 }

/-- Blob drift with wrapping 150 pixels beyond each edge (the wrap checks
run sequentially as in the source). -/
def softPastelMove (w h : ℚ) (p : P) : P :=
  let x1 := p.x + p.speedX
  let y1 := p.y + p.speedY
  let x2 := if x1 < -150 then w + 150 else x1
  let x3 := if x2 > w + 150 then -150 else x2
  let y2 := if y1 < -150 then h + 150 else y1
  let y3 := if y2 > h + 150 then -150 else y2
  { p with x := x3, y := y3 }

def softPastelDraws (env : Env) (now : ℚ) (p : P) : List DrawOp :=
  let pulseValue := env.sinQ (now * p.pulseSpeed + p.pulsePhase) * 0.15 + 0.85
  let currentSize := p.baseSize * pulseValue
  p.circles.map (fun c =>
    DrawOp.arc (p.x + c.offsetX) (p.y + c.offsetY) (currentSize * c.sizeMultiplier) p.colorC)

def animateSoftPastel (env : Env) (now : ℚ) (s : EggsState) : EggsState × List DrawOp :=
  (( { s with particles := s.particles.map (softPastelMove s.w s.h) } ),
   DrawOp.clearFrame :: s.particles.flatMap (softPastelDraws env now))

/-! ### Theme: summit — layered falling snow -/

def summitFlake (env : Env) (w h : ℚ) (rLo rSpan sLo sSpan oLo oSpan : ℚ) (layer : Nat)
    (k : Nat) : P × Nat :=
  ({ x := rnd env k * w,
     y := rnd env (k + 1) * (-h),
     radius := rnd env (k + 2) * rSpan + rLo,
     speedY := rnd env (k + 3) * sSpan + sLo,
     speedX := rnd env (k + 4) * 0.6 - 0.3,
     opacity := rnd env (k + 5) * oSpan + oLo,
     layer := layer }, k + 6)

def initSummit (env : Env) (s : EggsState) : EggsState :=
  let l1 := mapRnd (fun (_ : Nat) k => summitFlake env s.w s.h 2 2 1.5 1.5 0.6 0.3 1 k)
    (List.range 40) s.k
  let l2 := mapRnd (fun (_ : Nat) k => summitFlake env s.w s.h 1.5 1 0.75 0.75 0.4 0.25 2 k)
    (List.range 30) l1.2
  let l3 := mapRnd (fun (_ : Nat) k => summitFlake env s.w s.h 0.8 0.7 0.3 0.5 0.25 0.2 3 k)
    (List.range 50) l2.2
  { s with particles := s.particles ++ l1.1 ++ l2.1 ++ l3.1, k := l3.2 }

def summitColor (mode : Mode) (opacity : ℚ) : ColorSpec :=
  match mode with
  | Mode.dark => ColorSpec.rgba 255 255 255 opacity
  | Mode.light => ColorSpec.rgba 160 180 200 opacity

/-- Snowflake fall with sinusoidal sway; below the canvas the flake restarts
at the top at a fresh random x, and horizontal positions wrap at the
edges. -/
def summitMove (env : Env) (w h : ℚ) (p : P) (k : Nat) : P × Nat :=
  let sway := env.sinQ (p.y * 0.01) * 0.5
  let y1 := p.y + p.speedY
  let x1 := p.x + p.speedX + sway
  let r := if y1 > h then (((0 : ℚ), rnd env k * w), k + 1) else ((y1, x1), k)
  let x2 := if r.1.2 > w then 0 else r.1.2
  let x3 := if x2 < 0 then w else x2
  ({ p with x := x3, y := r.1.1 }, r.2)

def animateSummit (env : Env) (mode : Mode) (s : EggsState) : EggsState × List DrawOp :=
  let b := mapRnd (summitMove env s.w s.h) s.particles s.k
  (( { s with particles := b.1, k := b.2 } ),
   DrawOp.clearFrame :: s.particles.map (fun p =>
     DrawOp.arc (p.x + p.speedX + env.sinQ (p.y * 0.01) * 0.5) p.y p.radius
       (summitColor mode p.opacity)))

/-! ### Theme: valor — impact ripples (the one simulation whose advance both
inserts new records and filters out expired ones). -/

def valorRed (mode : Mode) (a : ℚ) : ColorSpec :=
  match mode with
  | Mode.dark => ColorSpec.rgba 255 77 77 a
  | Mode.light => ColorSpec.rgba 179 23 23 a

def valorGold (mode : Mode) (a : ℚ) : ColorSpec :=
  match mode with
  | Mode.dark => ColorSpec.rgba 255 204 77 a
  | Mode.light => ColorSpec.rgba 255 191 0 a

def valorRipple (env : Env) (w h : ℚ) (delay : ℚ) (k : Nat) : P × Nat :=
  ({ x := rnd env k * w,
     y := rnd env (k + 1) * h,
     radius := 0,
     maxRadius := 120 + rnd env (k + 2) * 80,
     speed := 2 + rnd env (k + 3) * 1.5,
     opacity := 0.8,
     fadeSpeed := 0.012,
     colorRed := rnd env (k + 4) > 0.5,
     delay := delay }, k + 5)

def initValor (env : Env) (s : EggsState) : EggsState :=
  let b := mapRnd (fun (i : Nat) k => valorRipple env s.w s.h ((i : ℚ) * 30) k)
    (List.range 3) s.k
  { s with particles := s.particles ++ b.1, k := b.2 }

/-- Filter body of the valor ripple pass: delayed ripples only tick down,
fully faded ripples are dropped, live ripples expand with acceleration and
fade, and survive only while below their maximum radius and still visible. -/
def valorStep (p : P) : Option P :=
  if p.delay > 0 then some { p with delay := p.delay - 1 }
  else if p.opacity ≤ 0 then none
  else
    let radius1 := p.radius + p.speed
    let opacity1 := p.opacity - p.fadeSpeed
    let speed1 := if radius1 > p.maxRadius * 0.5 then p.speed * 1.02 else p.speed
    if radius1 < p.maxRadius ∧ opacity1 > 0 then
      some { p with radius := radius1, opacity := opacity1, speed := speed1 }
    else none

def valorDraws (mode : Mode) (p : P) : List DrawOp :=
  if p.delay > 0 ∨ p.opacity ≤ 0 then []
  else
    let col := fun a => if p.colorRed then valorRed mode a else valorGold mode a
    [DrawOp.arc p.x p.y p.radius (col p.opacity)]
    ++ (if p.radius > 15 then [DrawOp.arc p.x p.y (p.radius - 8) (col (p.opacity * 0.6))] else [])
    ++ (if p.radius > 30 then [DrawOp.arc p.x p.y (p.radius + 12) (col (p.opacity * 0.3))] else [])

def animateValor (env : Env) (mode : Mode) (s : EggsState) : EggsState × List DrawOp :=
  let spawn :=
    if rnd env s.k < 0.015 then
      let r := valorRipple env s.w s.h 0 (s.k + 1)
      ([r.1], r.2)
    else ([], s.k + 1)
  let base := s.particles ++ spawn.1
  (( { s with particles := base.filterMap valorStep, k := spawn.2 } ),
   DrawOp.clearFrame :: base.flatMap (valorDraws mode))

/-! ### Theme: prism — rainbow particles -/

def initPrism (env : Env) (s : EggsState) : EggsState :=
  let b := mapRnd (fun (_ : Nat) k =>
    (({ x := rnd env k * s.w,
        y := rnd env (k + 1) * s.h,
        speedX := (rnd env (k + 2) - 0.5) * 0.4,
        speedY := (rnd env (k + 3) - 0.5) * 0.4,
        hue := rnd env (k + 4) * 360,
        hueSpeed := 0.5,
        size := 2 + rnd env (k + 5) * 3,
        opacity := 0.25 + rnd env (k + 6) * 0.3 } : P), k + 7))
    (List.range 25) s.k
  { s with particles := s.particles ++ b.1, k := b.2 }

def prismMove (w h : ℚ) (p : P) : P :=
  let x1 := p.x + p.speedX
  let y1 := p.y + p.speedY
  let hue1 := jsMod (p.hue + p.hueSpeed) 360
  { p with
    x := x1, y := y1, hue := hue1,
    speedX := if x1 < 0 ∨ x1 > w then -p.speedX else p.speedX,
    speedY := if y1 < 0 ∨ y1 > h then -p.speedY else p.speedY }

def animatePrism (s : EggsState) : EggsState × List DrawOp :=
  (( { s with particles := s.particles.map (prismMove s.w s.h) } ),
   DrawOp.clearFrame :: s.particles.map (fun p =>
     DrawOp.arc p.x p.y p.size (ColorSpec.hsla p.hue 70 60 p.opacity)))

/-! ### Router: initialize and animate based on theme -/

def themeDefault : String := "default"
def themeCyberNoir : String := "cyber-noir"
def themeVerdant : String := "verdant"
def themeEarthy : String := "earthy"
def themeSyntaxKey : String := "syntax"
def themeNexus : String := "nexus"
def themeLuxury : String := "luxury"
def themeSterling : String := "sterling"
def themeVogue : String := "vogue"
def themeVelocity : String := "velocity"
def themeComic : String := "comic"
def themeVitality : String := "vitality"
def themeEmber : String := "ember"
def themeMinimalist : String := "minimalist"
def themeSoftPastel : String := "soft-pastel"
def themeSummit : String := "summit"
def themeValor : String := "valor"
def themePrism : String := "prism"

/-- The eighteen theme keys the dispatcher switches on, in source order. -/
def themeKeys : List String :=
  [themeDefault, themeCyberNoir, themeVerdant, themeEarthy, themeSyntaxKey,
   themeNexus, themeLuxury, themeSterling, themeVogue, themeVelocity,
   themeComic, themeVitality, themeEmber, themeMinimalist, themeSoftPastel,
   themeSummit, themeValor, themePrism]

/-- The initializeEffect router: empty the shared particles array, then
dispatch on the theme key; an unrecognized key matches no case, leaving the
empty particle list (the no-op simulation). -/
def initializeEffect (env : Env) (theme : String) (mode : Mode) (s : EggsState) : EggsState :=
  let s0 := { s with particles := [] }
  if theme = themeDefault then initAurora env s0
  else if theme = themeCyberNoir then initCyberNoir env s0
  else if theme = themeVerdant then initVerdant env s0
  else if theme = themeEarthy then initEarthy env s0
  else if theme = themeSyntaxKey then initSyntaxGrid s0
  else if theme = themeNexus then initNexus env mode s0
  else if theme = themeLuxury then initOpulence env s0
  else if theme = themeSterling then initSterling env s0
  else if theme = themeVogue then initVogue s0
  else if theme = themeVelocity then initVelocity env mode s0
  else if theme = themeComic then initComic env mode s0
  else if theme = themeVitality then initVitality mode s0
  else if theme = themeEmber then initEmber env s0
  else if theme = themeMinimalist then initZen env s0
  else if theme = themeSoftPastel then initSoftPastel env s0
  else if theme = themeSummit then initSummit env s0
  else if theme = themeValor then initValor env s0
  else if theme = themePrism then initPrism env s0
  else s0

/-- The per-frame switch of the animate callback: dispatch on the theme key,
producing the mutated state and the frame's paint operations; an
unrecognized key matches no case, so the state is untouched and nothing is
drawn. -/
def animateDispatch (env : Env) (theme : String) (mode : Mode) (now : ℚ)
    (s : EggsState) : EggsState × List DrawOp :=
  if theme = themeDefault then animateAurora mode s
  else if theme = themeCyberNoir then animateCyberNoir env mode s
  else if theme = themeVerdant then animateVerdant s
  else if theme = themeEarthy then animateEarthy env mode s
  else if theme = themeSyntaxKey then animateSyntaxGrid env mode s
  else if theme = themeNexus then animateNexus env mode s
  else if theme = themeLuxury then animateOpulence env s
  else if theme = themeSterling then animateSterling env mode s
  else if theme = themeVogue then animateVogue env mode s
  else if theme = themeVelocity then animateVelocity env s
  else if theme = themeComic then animateComic env s
  else if theme = themeVitality then animateVitality s
  else if theme = themeEmber then animateEmber env mode s
  else if theme = themeMinimalist then animateZen mode s
  else if theme = themeSoftPastel then animateSoftPastel env now s
  else if theme = themeSummit then animateSummit env mode s
  else if theme = themeValor then animateValor env mode s
  else if theme = themePrism then animatePrism s
  else (s, [])

/-- One run of the animate frame callback.  The source has no try/catch: if
the drawing context throws, the first canvas operation of the frame (always
the backdrop clear or fill, executed before any record is mutated) raises,
the exception leaves the callback, and the requestAnimationFrame call that
follows the switch never runs.  failCtx models a context whose operations
throw; the Bool in the success value records that the next frame was
scheduled. -/
def animate (env : Env) (theme : String) (mode : Mode) (now : ℚ) (failCtx : Bool)
    (s : EggsState) : Except Unit (EggsState × Bool) :=
  let r := animateDispatch env theme mode now s
  if failCtx ∧ r.2 ≠ [] then Except.error ()
  else Except.ok (r.1, true)

/-- Advance the simulation state by n frames (paint operations discarded). -/
def advanceN (env : Env) (theme : String) (mode : Mode) (now : ℚ) :
    Nat → EggsState → EggsState
  | 0, s => s
  | n + 1, s => advanceN env theme mode now n (animateDispatch env theme mode now s).1

/-! ### Animation Controller: the ThemeEasterEggs component effect -/

/-- The component props the effect closes over. -/
structure Props where
  enabled : Bool
  theme : String
  mode : Mode
deriving DecidableEq

/-- The closure variables as freshly created at the start of one effect run
(canvas sized to the window, empty arrays, Pac-Man defaults with the
mode-dependent initial color, mouse at the canvas center); k is the ambient
Math.random call counter, which keeps running across effect runs. -/
def freshEggs (mode : Mode) (w h : ℚ) (k : Nat) : EggsState :=
  { w := w, h := h, k := k,
    pacman := { color := nexusPacColor mode },
    mouseX := w / 2, mouseY := h / 2 }

/-- One full effect run: create the closures and run initializeEffect. -/
def runEffect (env : Env) (p : Props) (w h : ℚ) (k : Nat) : EggsState :=
  initializeEffect env p.theme p.mode (freshEggs p.mode w h k)

/-- The mounted component: its current props and the state of its running
effect. -/
structure Controller where
  props : Props
  st : EggsState
deriving DecidableEq

def mount (env : Env) (p : Props) (w h : ℚ) (k : Nat) : Controller :=
  { props := p, st := runEffect env p w h k }

/-- A mode-only prop change.  The effect lists mode in its dependency array,
so React tears the running effect down and re-runs it whenever the mode
differs: the canvas is resized, the particle array is emptied and
initializeEffect rebuilds the state from scratch.  An update to the same
mode re-renders without touching the effect. -/
def setMode (env : Env) (m : Mode) (c : Controller) : Controller :=
  if m = c.props.mode then c
  else mount env { c.props with mode := m } c.st.w c.st.h c.st.k

/-- A theme prop change: same dependency-array teardown and re-run. -/
def setTheme (env : Env) (t : String) (c : Controller) : Controller :=
  if t = c.props.theme then c
  else mount env { c.props with theme := t } c.st.w c.st.h c.st.k

/-- One animation frame of the running controller. -/
def frame (env : Env) (now : ℚ) (c : Controller) : Controller :=
  { c with st := (animateDispatch env c.props.theme c.props.mode now c.st).1 }

/-- The resize listener: set the canvas to the new window size and call
initializeEffect again; the closure variables other than the particle array
(ghosts, dots, counters) are not recreated. -/
def handleResize (env : Env) (w' h' : ℚ) (c : Controller) : Controller :=
  let resized := { c.st with w := w', h := h' }
  { c with st := initializeEffect env c.props.theme c.props.mode resized }

/-! ### Concrete environments and inputs used in the concrete scenarios -/

/-- Environment whose random stream is constantly one half and whose sine
oracle is constantly zero. -/
def envHalf : Env := { stream := fun _ => 1/2, sinQ := fun _ => 0 }

/-- Environment whose random stream is constantly zero. -/
def envZero : Env := { stream := fun _ => 0, sinQ := fun _ => 0 }

def verdantProps : Props := { enabled := true, theme := themeVerdant, mode := Mode.dark }

def cyberNoirProps : Props := { enabled := true, theme := themeCyberNoir, mode := Mode.dark }

/-- A one-particle sterling state far out of drift range, used to exercise
the drift clamp on a concrete input. -/
def sterlingOneState : EggsState :=
  { w := 800, h := 600, k := 0,
    particles := [{ x := 100, y := 130, originX := 0, originY := 0, vx := 50, vy := 40 }] }

/-! ## Lemmas -/

theorem mapRnd_length (f : α → Nat → β × Nat) (l : List α) (k : Nat) :
    (mapRnd f l k).1.length = l.length := by
  induction l generalizing k with
  | nil => rfl
  | cons a as ih => simp [mapRnd, ih]

theorem mapRnd_forall {Q : β → Prop} (f : α → Nat → β × Nat) (l : List α) (k : Nat)
    (hf : ∀ a ∈ l, ∀ j, Q (f a j).1) : ∀ b ∈ (mapRnd f l k).1, Q b := by
  induction l generalizing k with
  | nil => intro b hb; simp [mapRnd] at hb
  | cons a as ih =>
    intro b hb
    simp only [mapRnd, List.mem_cons] at hb
    rcases hb with hb | hb
    · exact hb ▸ hf a (by simp) k
    · exact ih _ (fun a ha j => hf a (by simp [ha]) j) b hb

theorem mapRnd_congr_pure (f : α → Nat → β × Nat) (g : α → β) (l : List α) (k : Nat)
    (hf : ∀ a j, (f a j).1 = g a) : (mapRnd f l k).1 = l.map g := by
  induction l generalizing k with
  | nil => rfl
  | cons a as ih => simp [mapRnd, hf, ih]

theorem mapRnd_map_of_forall {pred : α → Prop} (f : α → Nat → α × Nat) (g : α → α)
    (l : List α) (k : Nat) (hl : ∀ a ∈ l, pred a)
    (hf : ∀ a, pred a → ∀ j, (f a j).1 = g a) : (mapRnd f l k).1 = l.map g := by
  induction l generalizing k with
  | nil => rfl
  | cons a as ih =>
    simp only [mapRnd, List.map_cons, List.cons.injEq]
    exact ⟨hf a (hl a (by simp)) k, ih _ (fun a ha => hl a (by simp [ha]))⟩

/-! Dispatch equations: the if-chains of the two routers evaluated at each
literal theme key. -/

theorem initializeEffect_aurora (env : Env) (mode : Mode) (s : EggsState) :
    initializeEffect env themeDefault mode s = initAurora env { s with particles := [] } := rfl

theorem initializeEffect_cyberNoir (env : Env) (mode : Mode) (s : EggsState) :
    initializeEffect env themeCyberNoir mode s = initCyberNoir env { s with particles := [] } := rfl

theorem initializeEffect_verdant (env : Env) (mode : Mode) (s : EggsState) :
    initializeEffect env themeVerdant mode s = initVerdant env { s with particles := [] } := rfl

theorem initializeEffect_earthy (env : Env) (mode : Mode) (s : EggsState) :
    initializeEffect env themeEarthy mode s = initEarthy env { s with particles := [] } := rfl

theorem initializeEffect_syntaxGrid (env : Env) (mode : Mode) (s : EggsState) :
    initializeEffect env themeSyntaxKey mode s = initSyntaxGrid { s with particles := [] } := rfl

theorem initializeEffect_nexus (env : Env) (mode : Mode) (s : EggsState) :
    initializeEffect env themeNexus mode s = initNexus env mode { s with particles := [] } := rfl

theorem initializeEffect_opulence (env : Env) (mode : Mode) (s : EggsState) :
    initializeEffect env themeLuxury mode s = initOpulence env { s with particles := [] } := rfl

theorem initializeEffect_sterling (env : Env) (mode : Mode) (s : EggsState) :
    initializeEffect env themeSterling mode s = initSterling env { s with particles := [] } := rfl

theorem initializeEffect_vogue (env : Env) (mode : Mode) (s : EggsState) :
    initializeEffect env themeVogue mode s = initVogue { s with particles := [] } := rfl

theorem initializeEffect_velocity (env : Env) (mode : Mode) (s : EggsState) :
    initializeEffect env themeVelocity mode s = initVelocity env mode { s with particles := [] } := rfl

theorem initializeEffect_comic (env : Env) (mode : Mode) (s : EggsState) :
    initializeEffect env themeComic mode s = initComic env mode { s with particles := [] } := rfl

theorem initializeEffect_vitality (env : Env) (mode : Mode) (s : EggsState) :
    initializeEffect env themeVitality mode s = initVitality mode { s with particles := [] } := rfl

theorem initializeEffect_ember (env : Env) (mode : Mode) (s : EggsState) :
    initializeEffect env themeEmber mode s = initEmber env { s with particles := [] } := rfl

theorem initializeEffect_zen (env : Env) (mode : Mode) (s : EggsState) :
    initializeEffect env themeMinimalist mode s = initZen env { s with particles := [] } := rfl

theorem initializeEffect_softPastel (env : Env) (mode : Mode) (s : EggsState) :
    initializeEffect env themeSoftPastel mode s = initSoftPastel env { s with particles := [] } := rfl

theorem initializeEffect_summit (env : Env) (mode : Mode) (s : EggsState) :
    initializeEffect env themeSummit mode s = initSummit env { s with particles := [] } := rfl

theorem initializeEffect_valor (env : Env) (mode : Mode) (s : EggsState) :
    initializeEffect env themeValor mode s = initValor env { s with particles := [] } := rfl

theorem initializeEffect_prism (env : Env) (mode : Mode) (s : EggsState) :
    initializeEffect env themePrism mode s = initPrism env { s with particles := [] } := rfl

theorem animateDispatch_aurora (env : Env) (mode : Mode) (now : ℚ) (s : EggsState) :
    animateDispatch env themeDefault mode now s = animateAurora mode s := rfl

theorem animateDispatch_cyberNoir (env : Env) (mode : Mode) (now : ℚ) (s : EggsState) :
    animateDispatch env themeCyberNoir mode now s = animateCyberNoir env mode s := rfl

theorem animateDispatch_verdant (env : Env) (mode : Mode) (now : ℚ) (s : EggsState) :
    animateDispatch env themeVerdant mode now s = animateVerdant s := rfl

theorem animateDispatch_earthy (env : Env) (mode : Mode) (now : ℚ) (s : EggsState) :
    animateDispatch env themeEarthy mode now s = animateEarthy env mode s := rfl

theorem animateDispatch_syntaxGrid (env : Env) (mode : Mode) (now : ℚ) (s : EggsState) :
    animateDispatch env themeSyntaxKey mode now s = animateSyntaxGrid env mode s := rfl

theorem animateDispatch_nexus (env : Env) (mode : Mode) (now : ℚ) (s : EggsState) :
    animateDispatch env themeNexus mode now s = animateNexus env mode s := rfl

theorem animateDispatch_opulence (env : Env) (mode : Mode) (now : ℚ) (s : EggsState) :
    animateDispatch env themeLuxury mode now s = animateOpulence env s := rfl

theorem animateDispatch_sterling (env : Env) (mode : Mode) (now : ℚ) (s : EggsState) :
    animateDispatch env themeSterling mode now s = animateSterling env mode s := rfl

theorem animateDispatch_vogue (env : Env) (mode : Mode) (now : ℚ) (s : EggsState) :
    animateDispatch env themeVogue mode now s = animateVogue env mode s := rfl

theorem animateDispatch_velocity (env : Env) (mode : Mode) (now : ℚ) (s : EggsState) :
    animateDispatch env themeVelocity mode now s = animateVelocity env s := rfl

theorem animateDispatch_comic (env : Env) (mode : Mode) (now : ℚ) (s : EggsState) :
    animateDispatch env themeComic mode now s = animateComic env s := rfl

theorem animateDispatch_vitality (env : Env) (mode : Mode) (now : ℚ) (s : EggsState) :
    animateDispatch env themeVitality mode now s = animateVitality s := rfl

theorem animateDispatch_ember (env : Env) (mode : Mode) (now : ℚ) (s : EggsState) :
    animateDispatch env themeEmber mode now s = animateEmber env mode s := rfl

theorem animateDispatch_zen (env : Env) (mode : Mode) (now : ℚ) (s : EggsState) :
    animateDispatch env themeMinimalist mode now s = animateZen mode s := rfl

theorem animateDispatch_softPastel (env : Env) (mode : Mode) (now : ℚ) (s : EggsState) :
    animateDispatch env themeSoftPastel mode now s = animateSoftPastel env now s := rfl

theorem animateDispatch_summit (env : Env) (mode : Mode) (now : ℚ) (s : EggsState) :
    animateDispatch env themeSummit mode now s = animateSummit env mode s := rfl

theorem animateDispatch_valor (env : Env) (mode : Mode) (now : ℚ) (s : EggsState) :
    animateDispatch env themeValor mode now s = animateValor env mode s := rfl

theorem animateDispatch_prism (env : Env) (mode : Mode) (now : ℚ) (s : EggsState) :
    animateDispatch env themePrism mode now s = animatePrism s := rfl

/-- A random stream of values in the interval Math.random draws from. -/
def rngBounds (env : Env) : Prop := ∀ j, 0 ≤ env.stream j ∧ env.stream j < 1

theorem rngBounds_envHalf : rngBounds envHalf := by
  intro j
  constructor <;> norm_num [envHalf]

/-! ### Claim C8: aurora initialization -/

/-- C8: for the aurora (default) simulation, initialize at 800 x 600 canvas
dimensions produces exactly 5 wave records, and every record's baseY lies
between 0 and 600. -/
theorem aurora_init_five_waves (env : Env) (mode : Mode) (k : Nat) :
    (initializeEffect env themeDefault mode (freshEggs mode 800 600 k)).particles.length = 5 ∧
    ∀ p ∈ (initializeEffect env themeDefault mode (freshEggs mode 800 600 k)).particles,
      0 ≤ p.baseY ∧ p.baseY ≤ 600 := by
  rw [initializeEffect_aurora]
  constructor
  · simp [initAurora, mapRnd_length]
  · intro p hp
    simp only [initAurora, List.nil_append] at hp
    refine mapRnd_forall (Q := fun p => 0 ≤ p.baseY ∧ p.baseY ≤ 600) _ _ _ ?_ p hp
    intro i hi j
    have hi5 : i < 5 := List.mem_range.mp hi
    have hiq : (i : ℚ) ≤ 4 := by exact_mod_cast Nat.lt_succ_iff.mp hi5
    have hiq0 : (0 : ℚ) ≤ (i : ℚ) := Nat.cast_nonneg i
    simp only [auroraLayer, freshEggs]
    constructor <;> [nlinarith; nlinarith]

theorem getD_zero_mem {α : Type _} (l : List α) (d : α) (h : 0 < l.length) :
    l.getD 0 d ∈ l := by
  cases l with
  | nil => simp at h
  | cons a t => simp [List.getD]

/-- C8 witness: the theorem applied to the constant one-half stream. -/
theorem aurora_init_five_waves_witness :
    (initializeEffect envHalf themeDefault Mode.dark (freshEggs Mode.dark 800 600 0)).particles.length = 5 ∧
    (0 ≤ ((initializeEffect envHalf themeDefault Mode.dark (freshEggs Mode.dark 800 600 0)).particles.getD 0 {}).baseY ∧
     ((initializeEffect envHalf themeDefault Mode.dark (freshEggs Mode.dark 800 600 0)).particles.getD 0 {}).baseY ≤ 600) :=
  ⟨(aurora_init_five_waves envHalf Mode.dark 0).1,
   (aurora_init_five_waves envHalf Mode.dark 0).2 _
     (getD_zero_mem _ _ (by rw [(aurora_init_five_waves envHalf Mode.dark 0).1]; norm_num))⟩

/-! ### Claim C7: one ember advance on a fresh state -/

/-- The init-established facts about an ember particle that rule out a
respawn on the first advance. -/
def EmberFreshPred (p : P) : Prop :=
  250 ≤ p.life ∧ p.maxLife = p.life ∧ 3 ≤ p.initialRadius

theorem emberFresh_pred (env : Env) (w h : ℚ) (hr : rngBounds env) (k : Nat) (p0 : P) :
    EmberFreshPred (emberFresh env w h k p0).1 := by
  refine ⟨?_, rfl, ?_⟩
  · have := (hr (k + 4)).1
    simp only [emberFresh, rnd]
    nlinarith
  · have := (hr (k + 2)).1
    simp only [emberFresh, rnd]
    nlinarith

/-- The pure form of the non-respawning branch of emberMove. -/
def emberGrow (env : Env) (p : P) : P :=
  { p with
    x := p.x + env.sinQ (p.waver + p.waverSpeed) * 1,
    y := p.y - p.speedY,
    waver := p.waver + p.waverSpeed,
    life := p.life - 1,
    radius := p.initialRadius * ((p.life - 1) / p.maxLife) }

theorem emberMove_no_respawn (env : Env) (w h : ℚ) (p : P) (hp : EmberFreshPred p) (j : Nat) :
    (emberMove env w h p j).1 = emberGrow env p := by
  obtain ⟨hlife, hml, hir⟩ := hp
  have hpos : (0 : ℚ) < p.life := by linarith
  have hratio : (249 : ℚ) / 250 ≤ (p.life - 1) / p.life := by
    rw [div_le_div_iff₀ (by norm_num) hpos]
    linarith
  have hradius : (0.1 : ℚ) < p.initialRadius * ((p.life - 1) / p.maxLife) := by
    rw [hml]
    have h1 : (3 : ℚ) * (249 / 250) ≤ p.initialRadius * ((p.life - 1) / p.life) :=
      mul_le_mul hir hratio (by norm_num) (by linarith)
    nlinarith
  have hcond : ¬ (p.life - 1 ≤ 0 ∨ p.initialRadius * ((p.life - 1) / p.maxLife) ≤ 0.1) := by
    push_neg
    exact ⟨by linarith, hradius⟩
  simp only [emberMove, emberGrow, if_neg hcond]

/-- C7: one advance on a freshly initialized ember state of 150 particles
decrements every particle's life counter by exactly one, and afterwards no
particle has a negative radius. -/
theorem ember_first_advance (env : Env) (mode : Mode) (w h : ℚ) (k : Nat) (now : ℚ)
    (hr : rngBounds env) :
    (initializeEffect env themeEmber mode (freshEggs mode w h k)).particles.length = 150 ∧
    (animateDispatch env themeEmber mode now
        (initializeEffect env themeEmber mode (freshEggs mode w h k))).1.particles.map P.life
      = (initializeEffect env themeEmber mode (freshEggs mode w h k)).particles.map
          (fun p => p.life - 1) ∧
    ∀ p ∈ (animateDispatch env themeEmber mode now
        (initializeEffect env themeEmber mode (freshEggs mode w h k))).1.particles,
      0 ≤ p.radius := by
  rw [initializeEffect_ember, animateDispatch_ember]
  have hpred : ∀ p ∈ (initEmber env { freshEggs mode w h k with particles := [] }).particles,
      EmberFreshPred p := by
    simp only [initEmber, List.nil_append]
    intro p hp
    exact mapRnd_forall (Q := EmberFreshPred) _ _ _
      (fun _ _ j => emberFresh_pred env _ _ hr j _) p hp
  have hstate : (animateEmber env mode (initEmber env { freshEggs mode w h k with particles := [] })).1.particles
      = (initEmber env { freshEggs mode w h k with particles := [] }).particles.map
          (emberGrow env) := by
    simp only [animateEmber]
    exact mapRnd_map_of_forall _ _ _ _ hpred
      (fun a hpa j => emberMove_no_respawn env _ _ a hpa j)
  refine ⟨?_, ?_, ?_⟩
  · simp [initEmber, mapRnd_length, numberOfEmberParticles]
  · rw [hstate, List.map_map]
    rfl
  · intro p hp
    rw [hstate] at hp
    rcases List.mem_map.mp hp with ⟨q, hq, rfl⟩
    obtain ⟨hlife, hml, hir⟩ := hpred q hq
    show (0 : ℚ) ≤ q.initialRadius * ((q.life - 1) / q.maxLife)
    apply mul_nonneg (by linarith)
    apply div_nonneg (by linarith)
    rw [hml]
    linarith

/-- C7 witness: the theorem applied to the constant one-half stream at an
800 x 600 canvas. -/
theorem ember_first_advance_witness :
    (initializeEffect envHalf themeEmber Mode.dark (freshEggs Mode.dark 800 600 0)).particles.length = 150 ∧
    (animateDispatch envHalf themeEmber Mode.dark 0
        (initializeEffect envHalf themeEmber Mode.dark (freshEggs Mode.dark 800 600 0))).1.particles.map P.life
      = (initializeEffect envHalf themeEmber Mode.dark (freshEggs Mode.dark 800 600 0)).particles.map
          (fun p => p.life - 1) ∧
    ∀ p ∈ (animateDispatch envHalf themeEmber Mode.dark 0
        (initializeEffect envHalf themeEmber Mode.dark (freshEggs Mode.dark 800 600 0))).1.particles,
      0 ≤ p.radius :=
  ember_first_advance envHalf Mode.dark 800 600 0 0 rngBounds_envHalf

/-! ### Claim C10: sterling drift clamp -/

theorem signQ_clamp (ox x1 : ℚ) (h : abs (x1 - ox) > 70) :
    abs ((ox + signQ (x1 - ox) * 70) - ox) ≤ 70 := by
  rcases lt_trichotomy (x1 - ox) 0 with hlt | heq | hgt
  · have : signQ (x1 - ox) = -1 := by
      simp [signQ, hlt, not_lt.mpr (le_of_lt hlt)]
    rw [this]
    norm_num
  · rw [heq] at h
    norm_num at h
  · have : signQ (x1 - ox) = 1 := by simp [signQ, hgt]
    rw [this]
    norm_num

/-- C10: after every sterling advance, every particle's position stays
within 70 pixels of its origin on each axis; the drift clamp at the end of
each update restores any particle that exceeded the maximum drift. -/
theorem sterling_drift_bound (env : Env) (mode : Mode) (now : ℚ) (s : EggsState) :
    ∀ p ∈ (animateDispatch env themeSterling mode now s).1.particles,
      abs (p.x - p.originX) ≤ 70 ∧ abs (p.y - p.originY) ≤ 70 := by
  rw [animateDispatch_sterling]
  simp only [animateSterling]
  intro p hp
  refine mapRnd_forall
    (Q := fun p => abs (p.x - p.originX) ≤ 70 ∧ abs (p.y - p.originY) ≤ 70)
    _ _ _ ?_ p hp
  intro a _ j
  simp only [sterlingMove]
  constructor
  · split_ifs with h
    · exact signQ_clamp _ _ h
    · exact le_of_not_lt h
  · split_ifs with h
    · exact signQ_clamp _ _ h
    · exact le_of_not_lt h

/-- C10 witness: the clamp theorem applied to a concrete one-particle state
that starts far outside the drift range. -/
theorem sterling_drift_bound_witness :
    abs (((animateDispatch envHalf themeSterling Mode.dark 0 sterlingOneState).1.particles.getD 0 {}).x
        - ((animateDispatch envHalf themeSterling Mode.dark 0 sterlingOneState).1.particles.getD 0 {}).originX) ≤ 70 ∧
    abs (((animateDispatch envHalf themeSterling Mode.dark 0 sterlingOneState).1.particles.getD 0 {}).y
        - ((animateDispatch envHalf themeSterling Mode.dark 0 sterlingOneState).1.particles.getD 0 {}).originY) ≤ 70 :=
  sterling_drift_bound envHalf Mode.dark 0 sterlingOneState _
    (getD_zero_mem _ _ (by
      rw [animateDispatch_sterling]
      simp [animateSterling, mapRnd_length, sterlingOneState]))

/-! ### Claim C3: unknown theme keys degrade to the no-op simulation -/

theorem unknown_ne (theme : String) (h : theme ∉ themeKeys) :
    theme ≠ themeDefault ∧ theme ≠ themeCyberNoir ∧ theme ≠ themeVerdant ∧
    theme ≠ themeEarthy ∧ theme ≠ themeSyntaxKey ∧ theme ≠ themeNexus ∧
    theme ≠ themeLuxury ∧ theme ≠ themeSterling ∧ theme ≠ themeVogue ∧
    theme ≠ themeVelocity ∧ theme ≠ themeComic ∧ theme ≠ themeVitality ∧
    theme ≠ themeEmber ∧ theme ≠ themeMinimalist ∧ theme ≠ themeSoftPastel ∧
    theme ≠ themeSummit ∧ theme ≠ themeValor ∧ theme ≠ themePrism :=
  ⟨fun e => h (by rw [e]; decide), fun e => h (by rw [e]; decide),
   fun e => h (by rw [e]; decide), fun e => h (by rw [e]; decide),
   fun e => h (by rw [e]; decide), fun e => h (by rw [e]; decide),
   fun e => h (by rw [e]; decide), fun e => h (by rw [e]; decide),
   fun e => h (by rw [e]; decide), fun e => h (by rw [e]; decide),
   fun e => h (by rw [e]; decide), fun e => h (by rw [e]; decide),
   fun e => h (by rw [e]; decide), fun e => h (by rw [e]; decide),
   fun e => h (by rw [e]; decide), fun e => h (by rw [e]; decide),
   fun e => h (by rw [e]; decide), fun e => h (by rw [e]; decide)⟩

theorem dispatch_unknown_init (env : Env) (theme : String) (mode : Mode) (s : EggsState)
    (h : theme ∉ themeKeys) :
    initializeEffect env theme mode s = { s with particles := [] } := by
  obtain ⟨n1, n2, n3, n4, n5, n6, n7, n8, n9, n10, n11, n12, n13, n14, n15, n16, n17, n18⟩ :=
    unknown_ne theme h
  simp only [initializeEffect, if_neg n1, if_neg n2, if_neg n3, if_neg n4, if_neg n5,
    if_neg n6, if_neg n7, if_neg n8, if_neg n9, if_neg n10, if_neg n11, if_neg n12,
    if_neg n13, if_neg n14, if_neg n15, if_neg n16, if_neg n17, if_neg n18]

theorem dispatch_unknown_animate (env : Env) (theme : String) (mode : Mode) (now : ℚ)
    (s : EggsState) (h : theme ∉ themeKeys) :
    animateDispatch env theme mode now s = (s, []) := by
  obtain ⟨n1, n2, n3, n4, n5, n6, n7, n8, n9, n10, n11, n12, n13, n14, n15, n16, n17, n18⟩ :=
    unknown_ne theme h
  simp only [animateDispatch, if_neg n1, if_neg n2, if_neg n3, if_neg n4, if_neg n5,
    if_neg n6, if_neg n7, if_neg n8, if_neg n9, if_neg n10, if_neg n11, if_neg n12,
    if_neg n13, if_neg n14, if_neg n15, if_neg n16, if_neg n17, if_neg n18]

/-- C3: an unrecognized theme key falls back to the no-op simulation.  The
init router leaves the particle list empty, and the animate callback leaves
the state untouched, draws nothing, and returns successfully (never
throws) even on a context whose operations would throw — while still
scheduling the next frame. -/
theorem lookup_unknown_noop (env : Env) (theme : String) (mode : Mode) (now : ℚ)
    (failCtx : Bool) (s : EggsState) (h : theme ∉ themeKeys) :
    (initializeEffect env theme mode s).particles = [] ∧
    animate env theme mode now failCtx s = Except.ok (s, true) := by
  constructor
  · rw [dispatch_unknown_init env theme mode s h]
  · rw [animate, dispatch_unknown_animate env theme mode now s h]
    simp

/-- C3 witness: the theorem applied to the literal key the spec names. -/
theorem lookup_unknown_noop_witness :
    (initializeEffect envHalf "not-a-real-theme" Mode.dark
        (freshEggs Mode.dark 800 600 0)).particles = [] ∧
    animate envHalf "not-a-real-theme" Mode.dark 0 true (freshEggs Mode.dark 800 600 0)
      = Except.ok (freshEggs Mode.dark 800 600 0, true) :=
  lookup_unknown_noop envHalf "not-a-real-theme" Mode.dark 0 true
    (freshEggs Mode.dark 800 600 0) (by decide)

/-! ### Claim C1: a mode-only change and the simulation state -/

set_option maxRecDepth 100000 in
/-- C1 counterexample: with the verdant theme running at 800 x 600 under the
constant one-half stream, one frame moves every drop down two pixels; a
mode-only setMode then re-runs the effect (mode is in the dependency array),
so the particle y positions snap back to their fresh-init values instead of
being preserved. -/
theorem mode_change_resets_positions_cex :
    ((setMode envHalf Mode.light (frame envHalf 0 (mount envHalf verdantProps 800 600 0))).st.particles.map P.y)
      ≠ ((frame envHalf 0 (mount envHalf verdantProps 800 600 0)).st.particles.map P.y) := by
  with_unfolding_all decide

/-- C1 amended: a setMode with a different mode while Active re-runs the
effect, so the Controller DOES reinitialize state on a mode-only change:
the resulting controller is exactly a fresh mount with the new mode at the
same canvas size, and its particles are the freshly built initializeEffect
output (same theme) rather than the pre-change records. -/
theorem setMode_reinitializes (env : Env) (m : Mode) (c : Controller)
    (h : m ≠ c.props.mode) :
    setMode env m c = mount env { c.props with mode := m } c.st.w c.st.h c.st.k ∧
    (setMode env m c).st.particles
      = (initializeEffect env c.props.theme m (freshEggs m c.st.w c.st.h c.st.k)).particles ∧
    (setMode env m c).props.theme = c.props.theme := by
  rw [setMode, if_neg h]
  exact ⟨rfl, rfl, rfl⟩

/-- C1 amended witness: the amended theorem applied to the running verdant
controller of the counterexample. -/
theorem setMode_reinitializes_witness :
    setMode envHalf Mode.light (frame envHalf 0 (mount envHalf verdantProps 800 600 0))
      = mount envHalf
          { (frame envHalf 0 (mount envHalf verdantProps 800 600 0)).props with mode := Mode.light }
          (frame envHalf 0 (mount envHalf verdantProps 800 600 0)).st.w
          (frame envHalf 0 (mount envHalf verdantProps 800 600 0)).st.h
          (frame envHalf 0 (mount envHalf verdantProps 800 600 0)).st.k ∧
    (setMode envHalf Mode.light (frame envHalf 0 (mount envHalf verdantProps 800 600 0))).st.particles
      = (initializeEffect envHalf
          (frame envHalf 0 (mount envHalf verdantProps 800 600 0)).props.theme Mode.light
          (freshEggs Mode.light
            (frame envHalf 0 (mount envHalf verdantProps 800 600 0)).st.w
            (frame envHalf 0 (mount envHalf verdantProps 800 600 0)).st.h
            (frame envHalf 0 (mount envHalf verdantProps 800 600 0)).st.k)).particles ∧
    (setMode envHalf Mode.light (frame envHalf 0 (mount envHalf verdantProps 800 600 0))).props.theme
      = (frame envHalf 0 (mount envHalf verdantProps 800 600 0)).props.theme :=
  setMode_reinitializes envHalf Mode.light
    (frame envHalf 0 (mount envHalf verdantProps 800 600 0)) (by decide)

/-! ### Claim C2: particle count across advance calls -/

set_option maxRecDepth 100000 in
/-- C2 counterexample: for the valor simulation under the constant-zero
stream, a single advance call pushes a fresh ripple (the spawn draw 0 is
below the 0.015 threshold), so the live record count goes from 3 after
initialize to 4 after one advance. -/
theorem valor_count_not_invariant_cex :
    (initializeEffect envZero themeValor Mode.dark (freshEggs Mode.dark 800 600 0)).particles.length = 3 ∧
    (advanceN envZero themeValor Mode.dark 0 1
        (initializeEffect envZero themeValor Mode.dark (freshEggs Mode.dark 800 600 0))).particles.length = 4 ∧
    (3 : Nat) ≠ 4 := by
  with_unfolding_all decide

theorem dispatch_step_count (env : Env) (theme : String) (mode : Mode) (now : ℚ)
    (s : EggsState) (h : theme ≠ themeValor) :
    (animateDispatch env theme mode now s).1.particles.length = s.particles.length := by
  simp only [animateDispatch]
  by_cases h1 : theme = themeDefault
  · rw [if_pos h1]; simp [animateAurora]
  rw [if_neg h1]
  by_cases h2 : theme = themeCyberNoir
  · rw [if_pos h2]; simp [animateCyberNoir, mapRnd_length]
  rw [if_neg h2]
  by_cases h3 : theme = themeVerdant
  · rw [if_pos h3]; simp [animateVerdant]
  rw [if_neg h3]
  by_cases h4 : theme = themeEarthy
  · rw [if_pos h4]; simp [animateEarthy]
  rw [if_neg h4]
  by_cases h5 : theme = themeSyntaxKey
  · rw [if_pos h5]; simp [animateSyntaxGrid]
  rw [if_neg h5]
  by_cases h6 : theme = themeNexus
  · rw [if_pos h6]; simp [animateNexus]
  rw [if_neg h6]
  by_cases h7 : theme = themeLuxury
  · rw [if_pos h7]; simp [animateOpulence, mapRnd_length]
  rw [if_neg h7]
  by_cases h8 : theme = themeSterling
  · rw [if_pos h8]; simp [animateSterling, mapRnd_length]
  rw [if_neg h8]
  by_cases h9 : theme = themeVogue
  · rw [if_pos h9]; simp [animateVogue]
  rw [if_neg h9]
  by_cases h10 : theme = themeVelocity
  · rw [if_pos h10]; simp [animateVelocity, mapRnd_length]
  rw [if_neg h10]
  by_cases h11 : theme = themeComic
  · rw [if_pos h11]; simp [animateComic]
  rw [if_neg h11]
  by_cases h12 : theme = themeVitality
  · rw [if_pos h12]; simp [animateVitality]
  rw [if_neg h12]
  by_cases h13 : theme = themeEmber
  · rw [if_pos h13]; simp [animateEmber, mapRnd_length]
  rw [if_neg h13]
  by_cases h14 : theme = themeMinimalist
  · rw [if_pos h14]; simp [animateZen]
  rw [if_neg h14]
  by_cases h15 : theme = themeSoftPastel
  · rw [if_pos h15]; simp [animateSoftPastel]
  rw [if_neg h15]
  by_cases h16 : theme = themeSummit
  · rw [if_pos h16]; simp [animateSummit, mapRnd_length]
  rw [if_neg h16]
  rw [if_neg h]
  by_cases h17 : theme = themePrism
  · rw [if_pos h17]; simp [animatePrism]
  rw [if_neg h17]

/-- C2 amended: for every theme except valor (whose advance both pushes
randomly spawned ripples and filters out expired ones), the number of live
particle records after any number of advance calls equals the number
immediately after initialize; in particular the ember simulation respawns
expired particles in place, keeping its count constant. -/
theorem count_invariant_except_valor (env : Env) (theme : String) (mode : Mode)
    (now : ℚ) (n : Nat) (s : EggsState) (h : theme ≠ themeValor) :
    (advanceN env theme mode now n (initializeEffect env theme mode s)).particles.length
      = (initializeEffect env theme mode s).particles.length := by
  generalize initializeEffect env theme mode s = s0
  induction n generalizing s0 with
  | zero => rfl
  | succ n ih =>
    rw [advanceN, ih, dispatch_step_count env theme mode now s0 h]

/-- C2 amended witness: the theorem applied to the ember simulation (two
advance calls under the constant one-half stream keep all 150 records). -/
theorem count_invariant_except_valor_witness :
    (advanceN envHalf themeEmber Mode.dark 0 2
        (initializeEffect envHalf themeEmber Mode.dark (freshEggs Mode.dark 800 600 0))).particles.length
      = (initializeEffect envHalf themeEmber Mode.dark (freshEggs Mode.dark 800 600 0)).particles.length :=
  count_invariant_except_valor envHalf themeEmber Mode.dark 0 2
    (freshEggs Mode.dark 800 600 0) (by decide)

/-! ### Claim C4: a per-frame draw error and the frame clock -/

/-- C4 counterexample: on the aurora theme with a throwing drawing context,
the animate callback propagates the exception (there is no try/catch), so
the requestAnimationFrame call after the switch never runs and no next
frame is scheduled — the claim that the failure stays inside the frame is
false. -/
theorem draw_error_stops_clock_cex :
    animate envHalf themeDefault Mode.dark 0 true
        (initializeEffect envHalf themeDefault Mode.dark (freshEggs Mode.dark 800 600 0))
      = Except.error () := by
  with_unfolding_all rfl

theorem dispatch_draws_nonempty (env : Env) (theme : String) (mode : Mode) (now : ℚ)
    (s : EggsState) (h : theme ∈ themeKeys) :
    (animateDispatch env theme mode now s).2 ≠ [] := by
  simp only [themeKeys, List.mem_cons, List.not_mem_nil, or_false] at h
  rcases h with h | h | h | h | h | h | h | h | h | h | h | h | h | h | h | h | h | h
  · subst h; rw [animateDispatch_aurora]; simp [animateAurora]
  · subst h; rw [animateDispatch_cyberNoir]; simp [animateCyberNoir]
  · subst h; rw [animateDispatch_verdant]; simp [animateVerdant]
  · subst h; rw [animateDispatch_earthy]; simp [animateEarthy]
  · subst h; rw [animateDispatch_syntaxGrid]; simp [animateSyntaxGrid]
  · subst h; rw [animateDispatch_nexus]; simp [animateNexus]
  · subst h; rw [animateDispatch_opulence]; simp [animateOpulence]
  · subst h; rw [animateDispatch_sterling]; simp [animateSterling]
  · subst h; rw [animateDispatch_vogue]; simp [animateVogue]
  · subst h; rw [animateDispatch_velocity]; simp [animateVelocity]
  · subst h; rw [animateDispatch_comic]; simp [animateComic]
  · subst h; rw [animateDispatch_vitality]; simp [animateVitality]
  · subst h; rw [animateDispatch_ember]; simp [animateEmber]
  · subst h; rw [animateDispatch_zen]; simp [animateZen]
  · subst h; rw [animateDispatch_softPastel]; simp [animateSoftPastel]
  · subst h; rw [animateDispatch_summit]; simp [animateSummit]
  · subst h; rw [animateDispatch_valor]; simp [animateValor]
  · subst h; rw [animateDispatch_prism]; simp [animatePrism]

/-- C4 amended: a drawing-context error during a frame propagates out of
the animate callback and the next animation frame is NOT scheduled, because
requestAnimationFrame is called only after the theme switch completes; when
no draw error occurs, the frame's state update lands and the next frame is
scheduled. -/
theorem draw_error_propagates (env : Env) (theme : String) (mode : Mode) (now : ℚ)
    (s : EggsState) (h : theme ∈ themeKeys) :
    animate env theme mode now true s = Except.error () ∧
    animate env theme mode now false s
      = Except.ok ((animateDispatch env theme mode now s).1, true) := by
  constructor
  · have hd := dispatch_draws_nonempty env theme mode now s h
    simp [animate, hd]
  · simp [animate]

/-- C4 amended witness: the amended theorem applied to the verdant theme at
a concrete state. -/
theorem draw_error_propagates_witness :
    animate envHalf themeVerdant Mode.dark 0 true (freshEggs Mode.dark 800 600 0)
      = Except.error () ∧
    animate envHalf themeVerdant Mode.dark 0 false (freshEggs Mode.dark 800 600 0)
      = Except.ok ((animateDispatch envHalf themeVerdant Mode.dark 0 (freshEggs Mode.dark 800 600 0)).1, true) :=
  draw_error_propagates envHalf themeVerdant Mode.dark 0 (freshEggs Mode.dark 800 600 0)
    (by decide)

/-! Per-theme record counts of the initializers, for arbitrary incoming
state and random stream. -/

theorem initAurora_length (env : Env) (s : EggsState) :
    (initAurora env s).particles.length = s.particles.length + 5 := by
  simp [initAurora, mapRnd_length]

theorem initCyberNoir_length (env : Env) (s : EggsState) :
    (initCyberNoir env s).particles.length = s.particles.length + natFloor (s.w / 16) := by
  simp [initCyberNoir, mapRnd_length]

theorem initVerdant_length (env : Env) (s : EggsState) :
    (initVerdant env s).particles.length = s.particles.length + 50 := by
  simp [initVerdant, mapRnd_length]

theorem initEarthy_length (env : Env) (s : EggsState) :
    (initEarthy env s).particles.length = s.particles.length + 40 := by
  simp [initEarthy, mapRnd_length]

theorem initSyntaxGrid_length (s : EggsState) :
    (initSyntaxGrid s).particles.length = s.particles.length + 2400 := by
  have h : ((List.range 60).flatMap (fun ix =>
      (List.range 40).map (fun iy => ({ ix := ix, iy := iy } : P)))).length = 2400 := by
    rw [List.length_flatMap]
    have hc : (List.length ∘ fun ix =>
        (List.range 40).map (fun iy => ({ ix := ix, iy := iy } : P))) = fun _ => 40 :=
      funext fun ix => by simp
    rw [hc, List.map_const', List.sum_replicate]
    simp
  simp [initSyntaxGrid, h]

theorem initNexus_particles (env : Env) (mode : Mode) (s : EggsState) :
    (initNexus env mode s).particles = s.particles := rfl

theorem initOpulence_length (env : Env) (s : EggsState) :
    (initOpulence env s).particles.length = s.particles.length + 50 := by
  simp [initOpulence, mapRnd_length]

/-- The sterling grid cells generated by the two nested for-loops. -/
def sterlingCells (w h : ℚ) : List (ℚ × ℚ) :=
  (whileLt 0 w (w / 22) loopFuel).flatMap (fun x =>
    (whileLt 0 h (h / 22) loopFuel).map (fun y => (x, y)))

theorem initSterling_length (env : Env) (s : EggsState) :
    (initSterling env s).particles.length
      = s.particles.length + (sterlingCells s.w s.h).length := by
  simp [initSterling, sterlingCells, mapRnd_length, List.enum_length]

theorem initVogue_length (s : EggsState) :
    (initVogue s).particles.length = s.particles.length + 9 := by
  simp [initVogue]

theorem initVelocity_length (env : Env) (mode : Mode) (s : EggsState) :
    (initVelocity env mode s).particles.length = s.particles.length + 20 := by
  simp [initVelocity, mapRnd_length]

theorem initComic_length (env : Env) (mode : Mode) (s : EggsState) :
    (initComic env mode s).particles.length = s.particles.length + 30 := by
  simp [initComic, mapRnd_length]

theorem initVitality_length (mode : Mode) (s : EggsState) :
    (initVitality mode s).particles.length = s.particles.length + 4 := by
  simp [initVitality]

theorem initEmber_length (env : Env) (s : EggsState) :
    (initEmber env s).particles.length = s.particles.length + 150 := by
  simp [initEmber, mapRnd_length, numberOfEmberParticles]

set_option maxRecDepth 100000 in
theorem initZen_particles (env : Env) (s : EggsState) :
    (initZen env s).particles = s.particles := rfl

theorem initSoftPastel_length (env : Env) (s : EggsState) :
    (initSoftPastel env s).particles.length = s.particles.length + 15 := by
  simp [initSoftPastel, mapRnd_length]

theorem initSummit_length (env : Env) (s : EggsState) :
    (initSummit env s).particles.length = s.particles.length + 120 := by
  simp [initSummit, mapRnd_length]

theorem initValor_length (env : Env) (s : EggsState) :
    (initValor env s).particles.length = s.particles.length + 3 := by
  simp [initValor, mapRnd_length]

theorem initPrism_length (env : Env) (s : EggsState) :
    (initPrism env s).particles.length = s.particles.length + 25 := by
  simp [initPrism, mapRnd_length]

set_option maxRecDepth 100000 in
theorem sterlingCells_concrete :
    (sterlingCells 800 600).length = 484 ∧ (sterlingCells 1600 1200).length = 484 := by
  with_unfolding_all decide

/-! ### Claim C9: ColorMode influences only the palette -/

/-- Forget the single mode-derived color field the nexus advance stores in
the state (pacman.color is reassigned from the mode every frame); every
other state field — particle records, positions, velocities, phases, dots,
ghosts, counters and the random call index — is kept for comparison. -/
def erasePacColor (s : EggsState) : EggsState :=
  { s with pacman := { s.pacman with color := ColorSpec.rgba 0 0 0 0 } }

set_option maxRecDepth 10000 in
/-- C9: for every theme and every state, an advance under light mode and an
advance under dark mode from the same state with the same random stream
produce the same successor state up to the stored Pac-Man color — in
particular identical particle counts, positions and physics, with the mode
reaching only the emitted colors — and initialize produces the same record
count under either mode. -/
theorem colorMode_affects_only_palette (env : Env) (theme : String) (mode mode' : Mode)
    (now : ℚ) (s : EggsState) :
    erasePacColor (animateDispatch env theme mode now s).1
      = erasePacColor (animateDispatch env theme mode' now s).1 ∧
    (initializeEffect env theme mode s).particles.length
      = (initializeEffect env theme mode' s).particles.length := by
  constructor
  · by_cases h1 : theme = themeDefault
    · simp only [h1, animateDispatch_aurora]; rfl
    by_cases h2 : theme = themeCyberNoir
    · simp only [h2, animateDispatch_cyberNoir]; rfl
    by_cases h3 : theme = themeVerdant
    · simp only [h3, animateDispatch_verdant]
    by_cases h4 : theme = themeEarthy
    · simp only [h4, animateDispatch_earthy]; rfl
    by_cases h5 : theme = themeSyntaxKey
    · simp only [h5, animateDispatch_syntaxGrid]; rfl
    by_cases h6 : theme = themeNexus
    · simp only [h6, animateDispatch_nexus]; with_unfolding_all rfl
    by_cases h7 : theme = themeLuxury
    · simp only [h7, animateDispatch_opulence]
    by_cases h8 : theme = themeSterling
    · simp only [h8, animateDispatch_sterling]; rfl
    by_cases h9 : theme = themeVogue
    · simp only [h9, animateDispatch_vogue, animateVogue, List.map_map]; rfl
    by_cases h10 : theme = themeVelocity
    · simp only [h10, animateDispatch_velocity]
    by_cases h11 : theme = themeComic
    · simp only [h11, animateDispatch_comic]
    by_cases h12 : theme = themeVitality
    · simp only [h12, animateDispatch_vitality]
    by_cases h13 : theme = themeEmber
    · simp only [h13, animateDispatch_ember]; rfl
    by_cases h14 : theme = themeMinimalist
    · simp only [h14, animateDispatch_zen]; rfl
    by_cases h15 : theme = themeSoftPastel
    · simp only [h15, animateDispatch_softPastel]
    by_cases h16 : theme = themeSummit
    · simp only [h16, animateDispatch_summit]; rfl
    by_cases h17 : theme = themeValor
    · simp only [h17, animateDispatch_valor]; rfl
    by_cases h18 : theme = themePrism
    · simp only [h18, animateDispatch_prism]
    have hnk : theme ∉ themeKeys := by
      simp only [themeKeys, List.mem_cons, List.not_mem_nil, or_false]
      push_neg
      exact ⟨h1, h2, h3, h4, h5, h6, h7, h8, h9, h10, h11, h12, h13, h14, h15, h16, h17, h18⟩
    rw [dispatch_unknown_animate env theme mode now s hnk,
        dispatch_unknown_animate env theme mode' now s hnk]
  · by_cases h1 : theme = themeDefault
    · simp only [h1, initializeEffect_aurora]
    by_cases h2 : theme = themeCyberNoir
    · simp only [h2, initializeEffect_cyberNoir]
    by_cases h3 : theme = themeVerdant
    · simp only [h3, initializeEffect_verdant]
    by_cases h4 : theme = themeEarthy
    · simp only [h4, initializeEffect_earthy]
    by_cases h5 : theme = themeSyntaxKey
    · simp only [h5, initializeEffect_syntaxGrid]
    by_cases h6 : theme = themeNexus
    · simp only [h6, initializeEffect_nexus]; simp [initNexus_particles]
    by_cases h7 : theme = themeLuxury
    · simp only [h7, initializeEffect_opulence]
    by_cases h8 : theme = themeSterling
    · simp only [h8, initializeEffect_sterling]
    by_cases h9 : theme = themeVogue
    · simp only [h9, initializeEffect_vogue]
    by_cases h10 : theme = themeVelocity
    · simp only [h10, initializeEffect_velocity]
      simp [initVelocity_length]
    by_cases h11 : theme = themeComic
    · simp only [h11, initializeEffect_comic]
      simp [initComic_length]
    by_cases h12 : theme = themeVitality
    · simp only [h12, initializeEffect_vitality]
      simp [initVitality_length]
    by_cases h13 : theme = themeEmber
    · simp only [h13, initializeEffect_ember]
    by_cases h14 : theme = themeMinimalist
    · simp only [h14, initializeEffect_zen]
    by_cases h15 : theme = themeSoftPastel
    · simp only [h15, initializeEffect_softPastel]
    by_cases h16 : theme = themeSummit
    · simp only [h16, initializeEffect_summit]
    by_cases h17 : theme = themeValor
    · simp only [h17, initializeEffect_valor]
    by_cases h18 : theme = themePrism
    · simp only [h18, initializeEffect_prism]
    have hnk : theme ∉ themeKeys := by
      simp only [themeKeys, List.mem_cons, List.not_mem_nil, or_false]
      push_neg
      exact ⟨h1, h2, h3, h4, h5, h6, h7, h8, h9, h10, h11, h12, h13, h14, h15, h16, h17, h18⟩
    rw [dispatch_unknown_init env theme mode s hnk, dispatch_unknown_init env theme mode' s hnk]


/-! ### Claim C5: bounded drawing across N advance calls -/

/-- Under the constant one-half stream a Matrix rain column never satisfies
the reset draw (one half is not above 0.975), so each advance only adds the
fall speed to y. -/
theorem cyberNoirFall_half (h : ℚ) (p : P) (j : Nat) :
    (cyberNoirFall envHalf h p j).1 = { p with y := p.y + p.speed } := by
  simp only [cyberNoirFall]
  split_ifs with h1 h2
  · exact absurd h2 (by norm_num [rnd, envHalf])
  · rfl
  · rfl

theorem advanceCN_half (mode : Mode) (now : ℚ) (n : Nat) (s : EggsState) :
    (advanceN envHalf themeCyberNoir mode now n s).particles
      = s.particles.map (fun p => { p with y := p.y + p.speed * (n : ℚ) }) := by
  induction n generalizing s with
  | zero =>
    rw [advanceN]
    have he : (fun p : P => { p with y := p.y + p.speed * ((0 : Nat) : ℚ) }) = fun p => p :=
      funext fun p => by norm_num
    rw [he, List.map_id']
  | succ n ih =>
    rw [advanceN, ih]
    have hstep : ((animateDispatch envHalf themeCyberNoir mode now s).1).particles
        = s.particles.map (fun p => { p with y := p.y + p.speed }) := by
      rw [animateDispatch_cyberNoir]
      simp only [animateCyberNoir]
      exact mapRnd_congr_pure _ _ _ _ (fun a j => cyberNoirFall_half s.h a j)
    rw [hstep, List.map_map]
    congr 1
    funext p
    simp only [Function.comp]
    congr 1
    push_cast
    ring

set_option maxRecDepth 100000 in
/-- C5 counterexample: for the cyber-noir simulation at an 800 x 600 canvas
under the constant one-half stream the reset draw never fires (one half is
never above 0.975), so after 500 advance calls the first column sits at
y = 2300 — more than 1500 pixels below the canvas bottom, far beyond every
overflow margin any simulation uses (the largest in the code is 150); by
advanceCN_half the overshoot grows by 4 pixels per further frame, so no
fixed margin bounds it for all N. -/
theorem cybernoir_unbounded_cex :
    (((advanceN envHalf themeCyberNoir Mode.dark 0 500
        (initializeEffect envHalf themeCyberNoir Mode.dark (freshEggs Mode.dark 800 600 0))).particles.map P.y).getD 0 0)
      = 2300 ∧ (600 : ℚ) + 1500 < 2300 := by
  constructor
  · rw [advanceCN_half]
    have hc : ((500 : Nat) : ℚ) = 500 := by norm_num
    simp only [hc]
    with_unfolding_all decide
  · norm_num

theorem comicMove_bounds (w h : ℚ) (hw : 0 ≤ w) (hh : 0 ≤ h) (p : P) :
    0 ≤ (comicMove w h p).x ∧ (comicMove w h p).x ≤ w ∧
    0 ≤ (comicMove w h p).y ∧ (comicMove w h p).y ≤ h := by
  simp only [comicMove]
  exact ⟨le_max_left _ _, max_le hw (min_le_left _ _),
         le_max_left _ _, max_le hh (min_le_left _ _)⟩

/-- C5 amended: the comic simulation clamps every dot into the canvas every
frame, so after any number N of advance calls every particle position stays
within the canvas bounds; the cyber-noir columns, by contrast, reset only
when a random draw exceeds 0.975, so no fixed overflow margin bounds them
for all N and all random sequences. -/
theorem comic_bounded (env : Env) (mode : Mode) (now w h : ℚ) (k n : Nat)
    (hw : 0 < w) (hh : 0 < h) (hr : rngBounds env) :
    ∀ p ∈ (advanceN env themeComic mode now n
        (initializeEffect env themeComic mode (freshEggs mode w h k))).particles,
      0 ≤ p.x ∧ p.x ≤ w ∧ 0 ≤ p.y ∧ p.y ≤ h := by
  have hgen : ∀ (n : Nat) (s : EggsState), s.w = w → s.h = h →
      (∀ p ∈ s.particles, 0 ≤ p.x ∧ p.x ≤ w ∧ 0 ≤ p.y ∧ p.y ≤ h) →
      ∀ p ∈ (advanceN env themeComic mode now n s).particles,
        0 ≤ p.x ∧ p.x ≤ w ∧ 0 ≤ p.y ∧ p.y ≤ h := by
    intro n
    induction n with
    | zero => intro s _ _ hs; exact hs
    | succ n ih =>
      intro s hsw hsh hs
      rw [advanceN, animateDispatch_comic]
      refine ih _ ?_ ?_ ?_
      · simp only [animateComic]; exact hsw
      · simp only [animateComic]; exact hsh
      · intro p hp
        simp only [animateComic] at hp
        rcases List.mem_map.mp hp with ⟨q, _, rfl⟩
        rw [← hsw, ← hsh]
        exact comicMove_bounds s.w s.h (hsw ▸ hw.le) (hsh ▸ hh.le) q
  refine hgen n _ ?_ ?_ ?_
  · rw [initializeEffect_comic]; rfl
  · rw [initializeEffect_comic]; rfl
  · rw [initializeEffect_comic]
    simp only [initComic, List.nil_append]
    intro p hp
    refine mapRnd_forall
      (Q := fun p => 0 ≤ p.x ∧ p.x ≤ w ∧ 0 ≤ p.y ∧ p.y ≤ h) _ _ _ ?_ p hp
    intro i _ j
    simp only [freshEggs]
    refine ⟨mul_nonneg (hr j).1 hw.le, ?_, mul_nonneg (hr (j + 1)).1 hh.le, ?_⟩
    · exact mul_le_of_le_one_left hw.le (hr j).2.le
    · exact mul_le_of_le_one_left hh.le (hr (j + 1)).2.le

/-! ### Claim C6: record count across a mid-run resize -/

set_option maxRecDepth 100000 in
/-- C6 counterexample: the cyber-noir simulation derives its column count
from the canvas width (floor of width / 16), so resizing mid-run from
800 x 600 to 1600 x 1200 doubles the record count from 50 to 100 — the
count is not canvas-size independent for every theme. -/
theorem cybernoir_resize_count_cex :
    (mount envHalf cyberNoirProps 800 600 0).st.particles.length = 50 ∧
    (handleResize envHalf 1600 1200
        (frame envHalf 0 (mount envHalf cyberNoirProps 800 600 0))).st.particles.length = 100 ∧
    (50 : Nat) ≠ 100 := by
  with_unfolding_all decide

/-- C6 amended: for every theme except cyber-noir, the record count after a
mid-run resize to 1600 x 1200 equals the count of a fresh mount at
800 x 600 — counts are theme-defined and independent of the canvas size
(sterling's count is its fixed 22 x 22 grid at either size). -/
theorem resize_preserves_count (env env' : Env) (mode : Mode) (k : Nat) (c : Controller)
    (h : c.props.theme ≠ themeCyberNoir) :
    (handleResize env' 1600 1200 c).st.particles.length
      = (mount env { enabled := true, theme := c.props.theme, mode := mode } 800 600 k).st.particles.length := by
  simp only [handleResize, mount, runEffect]
  by_cases h1 : c.props.theme = themeDefault
  · simp only [h1, initializeEffect_aurora]; simp [initAurora_length]
  by_cases h2 : c.props.theme = themeVerdant
  · simp only [h2, initializeEffect_verdant]; simp [initVerdant_length]
  by_cases h3 : c.props.theme = themeEarthy
  · simp only [h3, initializeEffect_earthy]; simp [initEarthy_length]
  by_cases h4 : c.props.theme = themeSyntaxKey
  · simp only [h4, initializeEffect_syntaxGrid]; simp [initSyntaxGrid_length]
  by_cases h5 : c.props.theme = themeNexus
  · simp only [h5, initializeEffect_nexus]; simp [initNexus_particles]
  by_cases h6 : c.props.theme = themeLuxury
  · simp only [h6, initializeEffect_opulence]; simp [initOpulence_length]
  by_cases h7 : c.props.theme = themeSterling
  · simp only [h7, initializeEffect_sterling]
    simp [initSterling_length, freshEggs, sterlingCells_concrete.1, sterlingCells_concrete.2]
  by_cases h8 : c.props.theme = themeVogue
  · simp only [h8, initializeEffect_vogue]; simp [initVogue_length]
  by_cases h9 : c.props.theme = themeVelocity
  · simp only [h9, initializeEffect_velocity]; simp [initVelocity_length]
  by_cases h10 : c.props.theme = themeComic
  · simp only [h10, initializeEffect_comic]; simp [initComic_length]
  by_cases h11 : c.props.theme = themeVitality
  · simp only [h11, initializeEffect_vitality]; simp [initVitality_length]
  by_cases h12 : c.props.theme = themeEmber
  · simp only [h12, initializeEffect_ember]; simp [initEmber_length]
  by_cases h13 : c.props.theme = themeMinimalist
  · simp only [h13, initializeEffect_zen]; simp [initZen_particles]
  by_cases h14 : c.props.theme = themeSoftPastel
  · simp only [h14, initializeEffect_softPastel]; simp [initSoftPastel_length]
  by_cases h15 : c.props.theme = themeSummit
  · simp only [h15, initializeEffect_summit]; simp [initSummit_length]
  by_cases h16 : c.props.theme = themeValor
  · simp only [h16, initializeEffect_valor]; simp [initValor_length]
  by_cases h17 : c.props.theme = themePrism
  · simp only [h17, initializeEffect_prism]; simp [initPrism_length]
  have hnk : c.props.theme ∉ themeKeys := by
    simp only [themeKeys, List.mem_cons, List.not_mem_nil, or_false]
    push_neg
    exact ⟨h1, h, h2, h3, h4, h5, h6, h7, h8, h9, h10, h11, h12, h13, h14, h15, h16, h17⟩
  rw [dispatch_unknown_init env' _ _ _ hnk, dispatch_unknown_init env _ _ _ hnk]

def sterlingProps : Props := { enabled := true, theme := themeSterling, mode := Mode.dark }

/-- C6 amended witness: the resize theorem applied to a running sterling
controller. -/
theorem resize_preserves_count_witness :
    (handleResize envHalf 1600 1200 (mount envHalf sterlingProps 800 600 0)).st.particles.length
      = (mount envHalf
          { enabled := true, theme := (mount envHalf sterlingProps 800 600 0).props.theme,
            mode := Mode.dark } 800 600 0).st.particles.length :=
  resize_preserves_count envHalf envHalf Mode.dark 0 (mount envHalf sterlingProps 800 600 0)
    (by decide)

/-- C5 amended witness: the comic bound applied after one advance call on
an 800 x 600 canvas under the constant one-half stream. -/
theorem comic_bounded_witness :
    0 ≤ ((advanceN envHalf themeComic Mode.dark 0 1
        (initializeEffect envHalf themeComic Mode.dark (freshEggs Mode.dark 800 600 0))).particles.getD 0 {}).x ∧
    ((advanceN envHalf themeComic Mode.dark 0 1
        (initializeEffect envHalf themeComic Mode.dark (freshEggs Mode.dark 800 600 0))).particles.getD 0 {}).x ≤ 800 ∧
    0 ≤ ((advanceN envHalf themeComic Mode.dark 0 1
        (initializeEffect envHalf themeComic Mode.dark (freshEggs Mode.dark 800 600 0))).particles.getD 0 {}).y ∧
    ((advanceN envHalf themeComic Mode.dark 0 1
        (initializeEffect envHalf themeComic Mode.dark (freshEggs Mode.dark 800 600 0))).particles.getD 0 {}).y ≤ 600 :=
  comic_bounded envHalf Mode.dark 0 800 600 0 1 (by norm_num) (by norm_num) rngBounds_envHalf _
    (getD_zero_mem _ _ (by
      rw [advanceN, advanceN, animateDispatch_comic, initializeEffect_comic]
      simp [animateComic, initComic, mapRnd_length]))

end ThemeEggs
